import Mathlib

/-!
# Surface Footstep System: the anim notify pipeline

A shallow embedding of `UAnimNotify_SurfaceFootstep::Notify`
(`Source/SurfaceFootstepSystem/Private/AnimNotify_SurfaceFootstep.cpp`) together with the
parts of `UFootstepComponent` (`Public/FootstepComponent.h`) it calls.

`Notify` is a procedure whose only outputs are the calls it makes on its collaborators
(message log, footstep component, pooling manager, footstep actor, debug overlay).  It is
embedded as a function from the state it reads to the ordered list of those calls, each
recorded with its arguments and, for queries, with the value the collaborator returned.
Collaborators whose bodies are not part of the sources (engine maths, the pool, the data
asset accessors) appear as fields holding the values they return.

C++ `float` values are carried as rationals: `Notify` only forwards them, apart from the
two literals `1.f`, `0.f` and the sign flip `* -1.f`, all of which are exact.
-/

namespace SurfaceFootstep

/-! ## Engine data -/

/-- FName is the engine's interned name; `NAME_None` is the distinguished none name, the
only one with which `FootSocket != NAME_None` fails. -/
inductive FName where
  | NAME_None
  | Named (s : String)
  deriving DecidableEq, Repr

/-- The text of a name, `FName::ToString`. -/
def FName.ToString : FName → String
  | .NAME_None => "None"
  | .Named s => s

/-- FGameplayTag wraps a tag name. -/
structure FGameplayTag where
  TagName : FName
  deriving DecidableEq, Repr

/-- The tag name, `FGameplayTag::GetTagName`. -/
def FGameplayTag.GetTagName (t : FGameplayTag) : FName := t.TagName

/-- The text of a tag, `FGameplayTag::ToString`. -/
def FGameplayTag.ToString (t : FGameplayTag) : String := t.TagName.ToString

/-- FVector with its three components. -/
structure FVector where
  X : ℚ
  Y : ℚ
  Z : ℚ
  deriving DecidableEq, Repr

/-- The constructor `FVector(float InF)`: all three components equal. -/
def FVector.splat (f : ℚ) : FVector := ⟨f, f, f⟩

/-- The opposite vector: each component negated. -/
def FVector.neg (v : FVector) : FVector := ⟨-v.X, -v.Y, -v.Z⟩

/-- The operator `FVector * float`. -/
def FVector.scale (v : FVector) (s : ℚ) : FVector := ⟨v.X * s, v.Y * s, v.Z * s⟩

/-- FRotator with pitch, yaw, roll. -/
structure FRotator where
  Pitch : ℚ
  Yaw : ℚ
  Roll : ℚ
  deriving DecidableEq, Repr

/-- FTransform as built by `FTransform(Rotation, Translation, Scale3D)`. -/
structure FTransform where
  Rotation : FRotator
  Translation : FVector
  Scale3D : FVector
  deriving DecidableEq, Repr

/-- The axes `EAxis::X`, `EAxis::Y`, `EAxis::Z`. -/
inductive EAxis where
  | X | Y | Z
  deriving DecidableEq, Repr

/-- The net modes of `UWorld::GetNetMode`. -/
inductive ENetMode where
  | NM_Standalone | NM_DedicatedServer | NM_ListenServer | NM_Client
  deriving DecidableEq, Repr

/-- EPhysicalSurface is a byte-sized enum; its numeric value is kept. -/
abbrev EPhysicalSurface := Nat

/-- The six cases of the `switch (FootstepTraceDirection)` statements of `Notify`. -/
inductive EFootstepTraceDirection where
  | Down | Up | Forward | Backward | Right | Left
  deriving DecidableEq, Repr

/-- A sound asset reference (`USoundBase*`, non-null). -/
structure USoundBase where
  Name : String
  deriving DecidableEq, Repr

/-- A particle asset reference (the non-null `UObject*` of `GetParticle`). -/
structure UParticleObject where
  Name : String
  deriving DecidableEq, Repr

/-- A sound attenuation asset reference. -/
structure USoundAttenuation where
  Name : String
  deriving DecidableEq, Repr

/-- A sound concurrency asset reference. -/
structure USoundConcurrency where
  Name : String
  deriving DecidableEq, Repr

/-- A pooled footstep actor (`AFootstepActor*`, non-null), identified by its pool slot. -/
structure AFootstepActor where
  Id : Nat
  deriving DecidableEq, Repr

/-- UPhysicalMaterial: object name and the `SurfaceType` property. -/
structure UPhysicalMaterial where
  Name : String
  SurfaceType : EPhysicalSurface
  deriving DecidableEq, Repr

/-- FBodyInstance: the value of `GetSimplePhysicalMaterial()`, `none` for a null pointer. -/
structure FBodyInstance where
  GetSimplePhysicalMaterial : Option UPhysicalMaterial
  deriving DecidableEq, Repr

/-- The hit primitive component: the value of `GetBodyInstance()`. -/
structure UPrimitiveComponent where
  GetBodyInstance : Option FBodyInstance
  deriving DecidableEq, Repr

/-- FHitResult, with the members `Notify` reads.  `PhysMaterial` is a weak pointer:
`some m` when `IsValid()` holds (then `Get()` is `m`), `none` otherwise. -/
structure FHitResult where
  bBlockingHit : Bool
  ImpactPoint : FVector
  ImpactNormal : FVector
  PhysMaterial : Option UPhysicalMaterial
  GetComponent : Option UPrimitiveComponent
  deriving DecidableEq, Repr

/-- UFootstepDataAsset, seen through the accessors `Notify` calls; each field is the value
the accessor returns during the call (`none` for a null pointer). -/
structure UFootstepDataAsset where
  Name : String
  GetSound : FGameplayTag → Option USoundBase
  GetParticle : FGameplayTag → Option UParticleObject
  GetVolume : ℚ
  GetPitch : ℚ
  GetRelScaleParticle : FVector
  GetFootstepLifeSpan : ℚ
  GetAttenuationOverride : Option USoundAttenuation
  GetConcurrencyOverride : Option USoundConcurrency

/-- UFootstepComponent (`FootstepComponent.h`), seen through the member functions `Notify`
calls.  `CreateFootstepLineTrace Start Direction` is the hit result the call leaves in
its out-parameter; `GetFootstepData` is the lookup by surface type; `GetShowDebug` and
`GetPlaySound2D` are the values of the two boolean accessors. -/
structure UFootstepComponent where
  CreateFootstepLineTrace : FVector → FVector → FHitResult
  GetFootstepData : EPhysicalSurface → Option UFootstepDataAsset
  GetShowDebug : Bool
  GetPlaySound2D : Bool

/-- The owning actor: whether its class implements `UFootstepInterface`, the value of
`IFootstepInterface::Execute_GetFootstepComponent`, and its label and object name. -/
structure AActor where
  ImplementsFootstepInterface : Bool
  GetFootstepComponent : Option UFootstepComponent
  ActorLabel : String
  Name : String

/-- UFoostepPoolingManagerComponent: `GetPooledActor` is the actor the manager hands out
once `SafeSpawnPooledActor()` has run (`none` for a null pointer). -/
structure UFoostepPoolingManagerComponent where
  GetPooledActor : Option AFootstepActor
  deriving DecidableEq, Repr

/-- The world settings object: `AsFootstepInterface` is the result of
`Cast<IFootstepInterface>`, holding the value of `GetPoolingManagerComponent()` when the
cast succeeds. -/
structure AWorldSettings where
  AsFootstepInterface : Option (Option UFoostepPoolingManagerComponent)
  deriving DecidableEq, Repr

/-- UWorld: net mode and world settings (`none` for a null pointer). -/
structure UWorld where
  GetNetMode : ENetMode
  GetWorldSettings : Option AWorldSettings
  deriving DecidableEq, Repr

/-- USkeletalMeshComponent, with the queries `Notify` makes on it. -/
structure USkeletalMeshComponent where
  GetWorld : Option UWorld
  GetOwner : Option AActor
  DoesSocketExist : FName → Bool
  GetSocketLocation : FName → FVector
  GetSocketRotation : FName → FRotator
  GetComponentLocation : FVector
  GetUpVector : FVector
  GetForwardVector : FVector
  GetRightVector : FVector

/-- The animation sequence handed to `Notify`; only its name is read. -/
structure UAnimSequenceBase where
  Name : String
  deriving DecidableEq, Repr

/-- Modelled from the spec: USurfaceFootstepSystemSettings, whose class is not among the
sources.  The category registry is an ordered list of footstep categories. -/
structure USurfaceFootstepSystemSettings where
  Categories : List FGameplayTag
  deriving DecidableEq, Repr

/-- Modelled from the spec: `GetCategoriesNum`, the number of registered categories. -/
def USurfaceFootstepSystemSettings.GetCategoriesNum (S : USurfaceFootstepSystemSettings) : Nat :=
  S.Categories.length

/-- Modelled from the spec: `ContainsCategory`, membership of a category in the registry. -/
def USurfaceFootstepSystemSettings.ContainsCategory (S : USurfaceFootstepSystemSettings)
    (c : FGameplayTag) : Bool :=
  decide (c ∈ S.Categories)

/-- The engine globals and maths `Notify` relies on: whether `GEngine` is non-null, whether
the build is `WITH_EDITOR`, and the three rotation helpers
`FRotationMatrix(R).GetScaledAxis(axis)`, `R.Vector()` and
`FRotationMatrix::MakeFromZ(v).Rotator()`. -/
structure Engine where
  GEngine : Bool
  WITH_EDITOR : Bool
  RotationMatrix_GetScaledAxis : FRotator → EAxis → FVector
  Rotator_Vector : FRotator → FVector
  MakeFromZ_Rotator : FVector → FRotator

/-- The members of the notify object that `Notify` reads. -/
structure UAnimNotify_SurfaceFootstep where
  FootstepSettings : Option USurfaceFootstepSystemSettings
  FootstepCategory : FGameplayTag
  bTraceFromFootSocket : Bool
  FootSocket : FName
  FootstepTraceDirection : EFootstepTraceDirection

/-! ## Calls made by `Notify` -/

/-- The three messages sent to `FMessageLog("PIE").Error`. -/
inductive ConfigError where
  | NoFootstepCategory
  | InvalidCategory (TagName : FName)
  | InvalidWorldSettings
  deriving DecidableEq, Repr

/-- A member function called on a footstep actor, with its arguments. -/
inductive FootstepActorCall where
  | SetPoolingActive (bInActive : Bool)
  | SetActorTransform (NewTransform : FTransform)
  | InitSound (Sound : Option USoundBase) (Volume Pitch : ℚ) (bPlaySound2D : Bool)
      (AttenuationOverride : Option USoundAttenuation)
      (ConcurrencyOverride : Option USoundConcurrency)
  | InitParticle (Particle : Option UParticleObject) (RelScaleVFX : FVector)
  | SetLifeSpan (InLifespan : ℚ)
  deriving DecidableEq, Repr

/-- One call made by `Notify` on a collaborator. -/
inductive Event where
  | MessageLogError (e : ConfigError)
  | GetFootstepComponent
  | CreateFootstepLineTrace (Start Direction : FVector) (OutHit : FHitResult)
  | GetFootstepData (SurfaceType : EPhysicalSurface) (Result : Option UFootstepDataAsset)
  | AddOnScreenDebugMessage (DebugMessage : String)
  | LogFootstep (DebugMessage : String)
  | SafeSpawnPooledActor
  | GetPooledActor (Result : Option AFootstepActor)
  | ActorCall (FootstepActor : AFootstepActor) (c : FootstepActorCall)

/-- A configuration error report. -/
def Event.isError : Event → Bool
  | .MessageLogError _ => true
  | _ => false

/-- A line trace. -/
def Event.isLineTrace : Event → Bool
  | .CreateFootstepLineTrace _ _ _ => true
  | _ => false

/-- A data table lookup. -/
def Event.isGetFootstepData : Event → Bool
  | .GetFootstepData _ _ => true
  | _ => false

/-- A debug diagnostic, on screen or in the log. -/
def Event.isDebug : Event → Bool
  | .AddOnScreenDebugMessage _ => true
  | .LogFootstep _ => true
  | _ => false

/-- A request to the pool: `SafeSpawnPooledActor` or `GetPooledActor`. -/
def Event.isPoolRequest : Event → Bool
  | .SafeSpawnPooledActor => true
  | .GetPooledActor _ => true
  | _ => false

/-- An operation on a footstep actor. -/
def Event.isActorCall : Event → Bool
  | .ActorCall _ _ => true
  | _ => false

/-- The query of the owner for its footstep component. -/
def Event.isGetFootstepComponent : Event → Bool
  | .GetFootstepComponent => true
  | _ => false

/-! ## The notify -/

/-- The member `UAnimNotify_SurfaceFootstep::TraceFromFootSocket`. -/
def TraceFromFootSocket (N : UAnimNotify_SurfaceFootstep) : Bool :=
  N.bTraceFromFootSocket && N.FootSocket != FName.NAME_None

/-- The member `UAnimNotify_SurfaceFootstep::GetActorName`. -/
def GetActorName (E : Engine) : Option AActor → String
  | none => ""
  | some Actor => if E.WITH_EDITOR then Actor.ActorLabel else Actor.Name

/-- The local `bUseFootSocketLocation` of `Notify`. -/
def bUseFootSocketLocation (N : UAnimNotify_SurfaceFootstep) (MeshComp : USkeletalMeshComponent) :
    Bool :=
  TraceFromFootSocket N && MeshComp.DoesSocketExist N.FootSocket

/-- The local `StartTrace` of `Notify`. -/
def StartTrace (N : UAnimNotify_SurfaceFootstep) (MeshComp : USkeletalMeshComponent) : FVector :=
  if bUseFootSocketLocation N MeshComp then MeshComp.GetSocketLocation N.FootSocket
  else MeshComp.GetComponentLocation

/-- The local `DirectionVector` of `Notify` after the two `switch` statements.  The initial
value `FVector(0.f)` is overwritten in each of the six cases. -/
def DirectionVector (E : Engine) (N : UAnimNotify_SurfaceFootstep)
    (MeshComp : USkeletalMeshComponent) : FVector :=
  if bUseFootSocketLocation N MeshComp then
    let SocketRotation := MeshComp.GetSocketRotation N.FootSocket
    match N.FootstepTraceDirection with
    | .Down => (E.RotationMatrix_GetScaledAxis SocketRotation EAxis.Z).scale (-1)
    | .Up => E.RotationMatrix_GetScaledAxis SocketRotation EAxis.Z
    | .Forward => E.Rotator_Vector SocketRotation
    | .Backward => (E.Rotator_Vector SocketRotation).scale (-1)
    | .Right => E.RotationMatrix_GetScaledAxis SocketRotation EAxis.Y
    | .Left => (E.RotationMatrix_GetScaledAxis SocketRotation EAxis.Y).scale (-1)
  else
    match N.FootstepTraceDirection with
    | .Down => MeshComp.GetUpVector.scale (-1)
    | .Up => MeshComp.GetUpVector
    | .Forward => MeshComp.GetForwardVector
    | .Backward => MeshComp.GetForwardVector.scale (-1)
    | .Right => MeshComp.GetRightVector
    | .Left => MeshComp.GetRightVector.scale (-1)

/-- The pooling manager lookup of `Notify`: cast the world settings to the footstep
interface and ask it for the pooling manager component. -/
def PoolingManagerOf (World : UWorld) : Option UFoostepPoolingManagerComponent :=
  match World.GetWorldSettings with
  | none => none
  | some WorldSettings =>
    match WorldSettings.AsFootstepInterface with
    | none => none
    | some PoolingManager => PoolingManager

/-- The local `PhysMat` of `Notify`: the hit's own physical material when valid, else the
simple physical material of the hit component's body instance. -/
def PhysMatOf (TraceHitResult : FHitResult) : Option UPhysicalMaterial :=
  match TraceHitResult.PhysMaterial with
  | some PhysMat => some PhysMat
  | none =>
    match TraceHitResult.GetComponent with
    | none => none
    | some Component =>
      match Component.GetBodyInstance with
      | none => none
      | some BodyInstance => BodyInstance.GetSimplePhysicalMaterial

/-- The local `SocketName` of the debug block. -/
def SocketName (N : UAnimNotify_SurfaceFootstep) : String :=
  if TraceFromFootSocket N then N.FootSocket.ToString else "ROOT"

/-- The local `DebugMessage` of the debug block. -/
def DebugMessage (E : Engine) (N : UAnimNotify_SurfaceFootstep)
    (MeshComp : USkeletalMeshComponent) (Animation : UAnimSequenceBase)
    (PhysMat : UPhysicalMaterial) (FootstepData : UFootstepDataAsset) : String :=
  "PhysMat: " ++ PhysMat.Name ++ ", DataAsset: " ++ FootstepData.Name ++ ", Anim: " ++
    Animation.Name ++ ", Category: " ++ N.FootstepCategory.ToString ++ ", Socket: " ++
    SocketName N ++ ", Owner: " ++ GetActorName E MeshComp.GetOwner

/-- The debug block of `Notify`. -/
def DebugBlock (E : Engine) (N : UAnimNotify_SurfaceFootstep)
    (MeshComp : USkeletalMeshComponent) (Animation : UAnimSequenceBase)
    (FootstepComponent : UFootstepComponent) (PhysMat : UPhysicalMaterial)
    (FootstepData : UFootstepDataAsset) : List Event :=
  if E.GEngine && FootstepComponent.GetShowDebug then
    [Event.AddOnScreenDebugMessage (DebugMessage E N MeshComp Animation PhysMat FootstepData),
     Event.LogFootstep (DebugMessage E N MeshComp Animation PhysMat FootstepData)]
  else []

/-- The calls made on the footstep actor handed out by the pool. -/
def ConfigureFootstepActor (E : Engine) (FootstepComponent : UFootstepComponent)
    (TraceHitResult : FHitResult) (FootstepData : UFootstepDataAsset)
    (FootstepSound : Option USoundBase) (FootstepParticle : Option UParticleObject) :
    List FootstepActorCall :=
  let WorldTransform : FTransform :=
    ⟨E.MakeFromZ_Rotator TraceHitResult.ImpactNormal, TraceHitResult.ImpactPoint, FVector.splat 1⟩
  let RelLocationVFX := FootstepData.GetRelScaleParticle
  [FootstepActorCall.SetPoolingActive false,
   FootstepActorCall.SetActorTransform WorldTransform,
   FootstepActorCall.InitSound FootstepSound FootstepData.GetVolume FootstepData.GetPitch
     FootstepComponent.GetPlaySound2D FootstepData.GetAttenuationOverride
     FootstepData.GetConcurrencyOverride,
   FootstepActorCall.InitParticle FootstepParticle RelLocationVFX,
   FootstepActorCall.SetLifeSpan FootstepData.GetFootstepLifeSpan,
   FootstepActorCall.SetPoolingActive true]

/-- The activation block of `Notify`: from reading the sound and particle of the category
to the last call on the footstep actor. -/
def ActivateFootstepActor (E : Engine) (N : UAnimNotify_SurfaceFootstep)
    (PoolingManager : UFoostepPoolingManagerComponent) (FootstepComponent : UFootstepComponent)
    (TraceHitResult : FHitResult) (FootstepData : UFootstepDataAsset) : List Event :=
  let FootstepSound := FootstepData.GetSound N.FootstepCategory
  let FootstepParticle := FootstepData.GetParticle N.FootstepCategory
  if FootstepSound.isSome || FootstepParticle.isSome then
    Event.SafeSpawnPooledActor :: Event.GetPooledActor PoolingManager.GetPooledActor ::
      match PoolingManager.GetPooledActor with
      | none => []
      | some FootstepActor =>
        (ConfigureFootstepActor E FootstepComponent TraceHitResult FootstepData
          FootstepSound FootstepParticle).map (Event.ActorCall FootstepActor)
  else []

/-- The part of `Notify` that follows the line trace. -/
def AfterTrace (E : Engine) (N : UAnimNotify_SurfaceFootstep)
    (MeshComp : USkeletalMeshComponent) (Animation : UAnimSequenceBase)
    (PoolingManager : UFoostepPoolingManagerComponent) (FootstepComponent : UFootstepComponent)
    (TraceHitResult : FHitResult) : List Event :=
  if !TraceHitResult.bBlockingHit then []
  else
    match PhysMatOf TraceHitResult with
    | none => []
    | some PhysMat =>
      Event.GetFootstepData PhysMat.SurfaceType
          (FootstepComponent.GetFootstepData PhysMat.SurfaceType) ::
        match FootstepComponent.GetFootstepData PhysMat.SurfaceType with
        | none => []
        | some FootstepData =>
          DebugBlock E N MeshComp Animation FootstepComponent PhysMat FootstepData ++
            ActivateFootstepActor E N PoolingManager FootstepComponent TraceHitResult FootstepData

/-- The function `UAnimNotify_SurfaceFootstep::Notify`, as the list of calls it makes, in
order.  `MeshComp` is `none` for a null pointer.  The call to `Super::Notify` is the
engine's base class and makes none of the calls recorded here. -/
def Notify (E : Engine) (N : UAnimNotify_SurfaceFootstep)
    (MeshComp : Option USkeletalMeshComponent) (Animation : UAnimSequenceBase) : List Event :=
  match N.FootstepSettings with
  | none => []
  | some FootstepSettings =>
  match MeshComp with
  | none => []
  | some Mesh =>
  match Mesh.GetWorld with
  | none => []
  | some World =>
  if World.GetNetMode = ENetMode.NM_DedicatedServer then []
  else
  match Mesh.GetOwner with
  | none => []
  | some Owner =>
  if !Owner.ImplementsFootstepInterface then []
  else if FootstepSettings.GetCategoriesNum = 0 then
    [Event.MessageLogError ConfigError.NoFootstepCategory]
  else if !FootstepSettings.ContainsCategory N.FootstepCategory then
    [Event.MessageLogError (ConfigError.InvalidCategory N.FootstepCategory.GetTagName)]
  else
  match PoolingManagerOf World with
  | none => [Event.MessageLogError ConfigError.InvalidWorldSettings]
  | some PoolingManager =>
    Event.GetFootstepComponent ::
      match Owner.GetFootstepComponent with
      | none => []
      | some FootstepComponent =>
        let TraceHitResult :=
          FootstepComponent.CreateFootstepLineTrace (StartTrace N Mesh) (DirectionVector E N Mesh)
        Event.CreateFootstepLineTrace (StartTrace N Mesh) (DirectionVector E N Mesh)
            TraceHitResult ::
          AfterTrace E N Mesh Animation PoolingManager FootstepComponent TraceHitResult

/-! ## Concrete inputs -/

/-- The category tag Walk. -/
def tagWalk : FGameplayTag := ⟨FName.Named "Walk"⟩

/-- The socket name foot_L. -/
def footL : FName := FName.Named "foot_L"

/-- An engine with `GEngine` set, outside the editor; the rotation helpers are those of the
zero rotator, the only rotation occurring in the inputs below. -/
def engine0 : Engine where
  GEngine := true
  WITH_EDITOR := false
  RotationMatrix_GetScaledAxis := fun _ axis =>
    match axis with
    | .X => ⟨1, 0, 0⟩
    | .Y => ⟨0, 1, 0⟩
    | .Z => ⟨0, 0, 1⟩
  Rotator_Vector := fun _ => ⟨1, 0, 0⟩
  MakeFromZ_Rotator := fun _ => ⟨0, 0, 0⟩

/-- A physical material of surface type 1 named Concrete. -/
def physConcrete : UPhysicalMaterial := ⟨"Concrete", 1⟩

/-- A blocking hit on Concrete at height zero, normal pointing up. -/
def hitConcrete : FHitResult where
  bBlockingHit := true
  ImpactPoint := ⟨10, 20, 0⟩
  ImpactNormal := ⟨0, 0, 1⟩
  PhysMaterial := some physConcrete
  GetComponent := none

/-- A trace that hit nothing. -/
def hitNothing : FHitResult where
  bBlockingHit := false
  ImpactPoint := ⟨0, 0, 0⟩
  ImpactNormal := ⟨0, 0, 0⟩
  PhysMaterial := none
  GetComponent := none

/-- A blocking hit without its own physical material, on a component whose body instance
has the simple material Concrete. -/
def hitDefaultMaterial : FHitResult where
  bBlockingHit := true
  ImpactPoint := ⟨10, 20, 0⟩
  ImpactNormal := ⟨0, 0, 1⟩
  PhysMaterial := none
  GetComponent := some ⟨some ⟨some physConcrete⟩⟩

/-- The sound S1. -/
def soundS1 : USoundBase := ⟨"S1"⟩

/-- The data asset of Scenario A: for Walk the sound S1 and no particle, volume 0.8. -/
def assetConcrete : UFootstepDataAsset where
  Name := "DA_Concrete"
  GetSound := fun c => if c = tagWalk then some soundS1 else none
  GetParticle := fun _ => none
  GetVolume := 4 / 5
  GetPitch := 1
  GetRelScaleParticle := ⟨1, 1, 1⟩
  GetFootstepLifeSpan := 2
  GetAttenuationOverride := none
  GetConcurrencyOverride := none

/-- A data asset with neither sound nor particle for any category. -/
def assetSilent : UFootstepDataAsset where
  Name := "DA_Silent"
  GetSound := fun _ => none
  GetParticle := fun _ => none
  GetVolume := 1
  GetPitch := 1
  GetRelScaleParticle := ⟨1, 1, 1⟩
  GetFootstepLifeSpan := 2
  GetAttenuationOverride := none
  GetConcurrencyOverride := none

/-- A footstep component whose every trace returns `hit` and whose table maps surface
type 1 to `asset`. -/
def componentWith (hit : FHitResult) (asset : Option UFootstepDataAsset) (debug : Bool) :
    UFootstepComponent where
  CreateFootstepLineTrace := fun _ _ => hit
  GetFootstepData := fun k => if k = 1 then asset else none
  GetShowDebug := debug
  GetPlaySound2D := false

/-- A footstep-capable owner named Hero. -/
def ownerWith (FC : Option UFootstepComponent) : AActor where
  ImplementsFootstepInterface := true
  GetFootstepComponent := FC
  ActorLabel := "HeroLabel"
  Name := "Hero"

/-- An owner whose class does not implement the footstep interface. -/
def ownerIncapable : AActor where
  ImplementsFootstepInterface := false
  GetFootstepComponent := none
  ActorLabel := "CrateLabel"
  Name := "Crate"

/-- A world in the given net mode whose settings provide the given pooling manager. -/
def worldWith (mode : ENetMode) (PM : Option UFoostepPoolingManagerComponent) : UWorld where
  GetNetMode := mode
  GetWorldSettings := some ⟨some PM⟩

/-- A pooling manager that hands out actor 7. -/
def poolOne : UFoostepPoolingManagerComponent := ⟨some ⟨7⟩⟩

/-- A mesh component at the origin, upright, with the socket foot_L (when `hasSocket`)
at (1, 2, 3). -/
def meshWith (World : UWorld) (Owner : AActor) (hasSocket : Bool) : USkeletalMeshComponent where
  GetWorld := some World
  GetOwner := some Owner
  DoesSocketExist := fun n => hasSocket && decide (n = footL)
  GetSocketLocation := fun _ => ⟨1, 2, 3⟩
  GetSocketRotation := fun _ => ⟨0, 0, 0⟩
  GetComponentLocation := ⟨0, 0, 0⟩
  GetUpVector := ⟨0, 0, 1⟩
  GetForwardVector := ⟨1, 0, 0⟩
  GetRightVector := ⟨0, 1, 0⟩

/-- A notify of category Walk tracing Down from the socket foot_L, with the given
registry. -/
def notifyWalk (registry : List FGameplayTag) : UAnimNotify_SurfaceFootstep where
  FootstepSettings := some ⟨registry⟩
  FootstepCategory := tagWalk
  bTraceFromFootSocket := true
  FootSocket := footL
  FootstepTraceDirection := EFootstepTraceDirection.Down

/-- The animation Walk_Fwd. -/
def animWalk : UAnimSequenceBase := ⟨"Walk_Fwd"⟩

/-- Scenario A: mesh of a standalone world with a pool, a capable owner, a component
whose trace hits Concrete, with the socket foot_L present. -/
def meshScenarioA (debug : Bool) (hasSocket : Bool) : USkeletalMeshComponent :=
  meshWith (worldWith ENetMode.NM_Standalone (some poolOne))
    (ownerWith (some (componentWith hitConcrete (some assetConcrete) debug))) hasSocket

/-- The category tag Run. -/
def tagRun : FGameplayTag := ⟨FName.Named "Run"⟩

/-- Scenario A moved to a dedicated server. -/
def meshDedicatedServer : USkeletalMeshComponent :=
  meshWith (worldWith ENetMode.NM_DedicatedServer (some poolOne))
    (ownerWith (some (componentWith hitConcrete (some assetConcrete) false))) true

/-- A standalone world whose settings object does not implement the footstep interface. -/
def worldWithoutInterface : UWorld where
  GetNetMode := ENetMode.NM_Standalone
  GetWorldSettings := some ⟨none⟩

/-- A mesh whose owner is not footstep-capable, in a world without pooling manager. -/
def meshIncapableOwner : USkeletalMeshComponent :=
  meshWith worldWithoutInterface ownerIncapable true

/-- Scenario A in a world without pooling manager. -/
def meshWithoutPool : USkeletalMeshComponent :=
  meshWith worldWithoutInterface
    (ownerWith (some (componentWith hitConcrete (some assetConcrete) false))) true

/-- Scenario A with a trace that hits nothing. -/
def meshMiss : USkeletalMeshComponent :=
  meshWith (worldWith ENetMode.NM_Standalone (some poolOne))
    (ownerWith (some (componentWith hitNothing (some assetConcrete) true))) true

/-- Scenario A with a hit that has only the default material of the hit component. -/
def meshDefaultMaterial : USkeletalMeshComponent :=
  meshWith (worldWith ENetMode.NM_Standalone (some poolOne))
    (ownerWith (some (componentWith hitDefaultMaterial (some assetConcrete) false))) true

/-- Scenario A with a data asset that has neither sound nor particle. -/
def meshSilent : USkeletalMeshComponent :=
  meshWith (worldWith ENetMode.NM_Standalone (some poolOne))
    (ownerWith (some (componentWith hitConcrete (some assetSilent) false))) true

/-- Scenario A with debug on and no data asset for Concrete. -/
def meshNoAsset : USkeletalMeshComponent :=
  meshWith (worldWith ENetMode.NM_Standalone (some poolOne))
    (ownerWith (some (componentWith hitConcrete none true))) true

/-! ## Structure of a run -/

/-- Scaling by `-1` negates each component. -/
theorem FVector.scale_neg_one (v : FVector) : v.scale (-1) = ⟨-v.X, -v.Y, -v.Z⟩ := by
  simp [FVector.scale]

/-- A category contained in the registry makes the registry non-empty. -/
theorem GetCategoriesNum_ne_zero_of_contains (S : USurfaceFootstepSystemSettings)
    (c : FGameplayTag) (h : S.ContainsCategory c = true) : S.GetCategoriesNum ≠ 0 := by
  unfold USurfaceFootstepSystemSettings.ContainsCategory at h
  unfold USurfaceFootstepSystemSettings.GetCategoriesNum
  have hc : c ∈ S.Categories := by simpa using h
  intro h0
  rw [List.length_eq_zero] at h0
  rw [h0] at hc
  simp at hc

/-- Once every validation gate has passed and the owner yields a footstep component,
`Notify` queries the component, traces once and continues with `AfterTrace`. -/
theorem Notify_validated (E : Engine) (N : UAnimNotify_SurfaceFootstep)
    (MeshComp : Option USkeletalMeshComponent) (Animation : UAnimSequenceBase)
    (S : USurfaceFootstepSystemSettings) (M : USkeletalMeshComponent) (W : UWorld) (O : AActor)
    (PM : UFoostepPoolingManagerComponent) (FC : UFootstepComponent)
    (hS : N.FootstepSettings = some S) (hM : MeshComp = some M) (hW : M.GetWorld = some W)
    (hNet : W.GetNetMode ≠ ENetMode.NM_DedicatedServer) (hO : M.GetOwner = some O)
    (hI : O.ImplementsFootstepInterface = true)
    (hCat : S.ContainsCategory N.FootstepCategory = true)
    (hPM : PoolingManagerOf W = some PM) (hFC : O.GetFootstepComponent = some FC) :
    Notify E N MeshComp Animation =
      Event.GetFootstepComponent ::
        Event.CreateFootstepLineTrace (StartTrace N M) (DirectionVector E N M)
          (FC.CreateFootstepLineTrace (StartTrace N M) (DirectionVector E N M)) ::
        AfterTrace E N M Animation PM FC
          (FC.CreateFootstepLineTrace (StartTrace N M) (DirectionVector E N M)) := by
  have hnum := GetCategoriesNum_ne_zero_of_contains S _ hCat
  simp [Notify, hS, hM, hW, hNet, hO, hI, hCat, hPM, hFC, hnum]

/-- The four shapes of a run of `Notify`: nothing at all; one configuration error; the
component query alone; or the component query, one trace and `AfterTrace`. -/
theorem Notify_cases (E : Engine) (N : UAnimNotify_SurfaceFootstep)
    (MeshComp : Option USkeletalMeshComponent) (Animation : UAnimSequenceBase) :
    Notify E N MeshComp Animation = [] ∨
    (∃ err, Notify E N MeshComp Animation = [Event.MessageLogError err]) ∨
    (∃ S M W O PM, N.FootstepSettings = some S ∧ MeshComp = some M ∧ M.GetWorld = some W ∧
      W.GetNetMode ≠ ENetMode.NM_DedicatedServer ∧ M.GetOwner = some O ∧
      O.ImplementsFootstepInterface = true ∧ S.ContainsCategory N.FootstepCategory = true ∧
      PoolingManagerOf W = some PM ∧ O.GetFootstepComponent = none ∧
      Notify E N MeshComp Animation = [Event.GetFootstepComponent]) ∨
    (∃ S M W O PM FC, N.FootstepSettings = some S ∧ MeshComp = some M ∧ M.GetWorld = some W ∧
      W.GetNetMode ≠ ENetMode.NM_DedicatedServer ∧ M.GetOwner = some O ∧
      O.ImplementsFootstepInterface = true ∧ S.ContainsCategory N.FootstepCategory = true ∧
      PoolingManagerOf W = some PM ∧ O.GetFootstepComponent = some FC ∧
      Notify E N MeshComp Animation =
        Event.GetFootstepComponent ::
          Event.CreateFootstepLineTrace (StartTrace N M) (DirectionVector E N M)
            (FC.CreateFootstepLineTrace (StartTrace N M) (DirectionVector E N M)) ::
          AfterTrace E N M Animation PM FC
            (FC.CreateFootstepLineTrace (StartTrace N M) (DirectionVector E N M))) := by
  cases hS : N.FootstepSettings with
  | none => left; simp [Notify, hS]
  | some S =>
  cases hM : MeshComp with
  | none => left; simp [Notify, hS]
  | some M =>
  cases hW : M.GetWorld with
  | none => left; simp [Notify, hS, hW]
  | some W =>
  by_cases hNet : W.GetNetMode = ENetMode.NM_DedicatedServer
  · left; simp [Notify, hS, hW, hNet]
  cases hO : M.GetOwner with
  | none => left; simp [Notify, hS, hW, hNet, hO]
  | some O =>
  cases hI : O.ImplementsFootstepInterface with
  | false => left; simp [Notify, hS, hW, hNet, hO, hI]
  | true =>
  by_cases hnum : S.GetCategoriesNum = 0
  · right; left; exact ⟨ConfigError.NoFootstepCategory, by simp [Notify, hS, hW, hNet, hO, hI, hnum]⟩
  cases hCat : S.ContainsCategory N.FootstepCategory with
  | false => right; left; exact ⟨ConfigError.InvalidCategory N.FootstepCategory.GetTagName,
      by simp [Notify, hS, hW, hNet, hO, hI, hnum, hCat]⟩
  | true =>
  cases hPM : PoolingManagerOf W with
  | none => right; left; exact ⟨ConfigError.InvalidWorldSettings,
      by simp [Notify, hS, hW, hNet, hO, hI, hnum, hCat, hPM]⟩
  | some PM =>
  cases hFC : O.GetFootstepComponent with
  | none =>
    right; right; left
    exact ⟨S, M, W, O, PM, rfl, rfl, hW, hNet, hO, hI, hCat, hPM, hFC,
      by simp [Notify, hS, hW, hNet, hO, hI, hnum, hCat, hPM, hFC]⟩
  | some FC =>
    right; right; right
    exact ⟨S, M, W, O, PM, FC, rfl, rfl, hW, hNet, hO, hI, hCat, hPM, hFC,
      Notify_validated E N (some M) Animation S M W O PM FC hS rfl hW hNet hO hI hCat hPM hFC⟩

/-- The debug block emits debug diagnostics only. -/
theorem DebugBlock_kinds (E : Engine) (N : UAnimNotify_SurfaceFootstep)
    (M : USkeletalMeshComponent) (Animation : UAnimSequenceBase) (FC : UFootstepComponent)
    (pm : UPhysicalMaterial) (D : UFootstepDataAsset) :
    ∀ e ∈ DebugBlock E N M Animation FC pm D,
      e.isDebug = true ∧ e.isError = false ∧ e.isLineTrace = false ∧
      e.isGetFootstepData = false ∧ e.isPoolRequest = false ∧ e.isActorCall = false ∧
      e.isGetFootstepComponent = false := by
  intro e he
  unfold DebugBlock at he
  split at he
  · simp at he
    rcases he with rfl | rfl <;> simp [Event.isDebug, Event.isError, Event.isLineTrace,
      Event.isGetFootstepData, Event.isPoolRequest, Event.isActorCall,
      Event.isGetFootstepComponent]
  · simp at he

/-- The activation block only talks to the pool and to the footstep actor. -/
theorem ActivateFootstepActor_kinds (E : Engine) (N : UAnimNotify_SurfaceFootstep)
    (PM : UFoostepPoolingManagerComponent) (FC : UFootstepComponent) (H : FHitResult)
    (D : UFootstepDataAsset) :
    ∀ e ∈ ActivateFootstepActor E N PM FC H D,
      e.isDebug = false ∧ e.isError = false ∧ e.isLineTrace = false ∧
      e.isGetFootstepData = false ∧ e.isGetFootstepComponent = false := by
  intro e he
  unfold ActivateFootstepActor at he
  simp only at he
  split at he
  · simp only [List.mem_cons] at he
    rcases he with rfl | rfl | he
    · simp [Event.isDebug, Event.isError, Event.isLineTrace, Event.isGetFootstepData,
        Event.isGetFootstepComponent]
    · simp [Event.isDebug, Event.isError, Event.isLineTrace, Event.isGetFootstepData,
        Event.isGetFootstepComponent]
    · split at he
      · simp at he
      · simp only [List.mem_map] at he
        obtain ⟨c, _, rfl⟩ := he
        simp [Event.isDebug, Event.isError, Event.isLineTrace, Event.isGetFootstepData,
          Event.isGetFootstepComponent]
  · simp at he

/-- After the trace `Notify` reports no error, traces no more and does not query the owner
again. -/
theorem AfterTrace_kinds (E : Engine) (N : UAnimNotify_SurfaceFootstep)
    (M : USkeletalMeshComponent) (Animation : UAnimSequenceBase)
    (PM : UFoostepPoolingManagerComponent) (FC : UFootstepComponent) (H : FHitResult) :
    ∀ e ∈ AfterTrace E N M Animation PM FC H,
      e.isError = false ∧ e.isLineTrace = false ∧ e.isGetFootstepComponent = false := by
  intro e he
  unfold AfterTrace at he
  split at he
  · simp at he
  · split at he
    · simp at he
    · simp only [List.mem_cons] at he
      rcases he with rfl | he
      · simp [Event.isError, Event.isLineTrace, Event.isGetFootstepComponent]
      · split at he
        · simp at he
        · rw [List.mem_append] at he
          rcases he with he | he
          · have := DebugBlock_kinds E N M Animation FC _ _ e he
            exact ⟨this.2.1, this.2.2.1, this.2.2.2.2.2.2⟩
          · have := ActivateFootstepActor_kinds E N PM FC H _ e he
            exact ⟨this.2.1, this.2.2.1, this.2.2.2.2⟩

/-- A trace without a blocking hit ends the run. -/
theorem AfterTrace_of_not_blocking (E : Engine) (N : UAnimNotify_SurfaceFootstep)
    (M : USkeletalMeshComponent) (Animation : UAnimSequenceBase)
    (PM : UFoostepPoolingManagerComponent) (FC : UFootstepComponent) (H : FHitResult)
    (hB : H.bBlockingHit = false) : AfterTrace E N M Animation PM FC H = [] := by
  simp [AfterTrace, hB]

/-- A blocking hit without any physical material ends the run. -/
theorem AfterTrace_of_unresolved (E : Engine) (N : UAnimNotify_SurfaceFootstep)
    (M : USkeletalMeshComponent) (Animation : UAnimSequenceBase)
    (PM : UFoostepPoolingManagerComponent) (FC : UFootstepComponent) (H : FHitResult)
    (hP : PhysMatOf H = none) : AfterTrace E N M Animation PM FC H = [] := by
  simp [AfterTrace, hP]

/-- A blocking hit with a physical material but no data asset: the lookup and nothing
more. -/
theorem AfterTrace_of_no_asset (E : Engine) (N : UAnimNotify_SurfaceFootstep)
    (M : USkeletalMeshComponent) (Animation : UAnimSequenceBase)
    (PM : UFoostepPoolingManagerComponent) (FC : UFootstepComponent) (H : FHitResult)
    (pm : UPhysicalMaterial) (hB : H.bBlockingHit = true) (hP : PhysMatOf H = some pm)
    (hD : FC.GetFootstepData pm.SurfaceType = none) :
    AfterTrace E N M Animation PM FC H = [Event.GetFootstepData pm.SurfaceType none] := by
  simp [AfterTrace, hB, hP, hD]

/-- A blocking hit with a physical material and a data asset: the lookup, the debug block
and the activation block. -/
theorem AfterTrace_of_asset (E : Engine) (N : UAnimNotify_SurfaceFootstep)
    (M : USkeletalMeshComponent) (Animation : UAnimSequenceBase)
    (PM : UFoostepPoolingManagerComponent) (FC : UFootstepComponent) (H : FHitResult)
    (pm : UPhysicalMaterial) (D : UFootstepDataAsset) (hB : H.bBlockingHit = true)
    (hP : PhysMatOf H = some pm) (hD : FC.GetFootstepData pm.SurfaceType = some D) :
    AfterTrace E N M Animation PM FC H =
      Event.GetFootstepData pm.SurfaceType (some D) ::
        (DebugBlock E N M Animation FC pm D ++ ActivateFootstepActor E N PM FC H D) := by
  simp [AfterTrace, hB, hP, hD]

/-- The three outcomes of the part after the trace, by hit, material and data asset. -/
theorem AfterTrace_cases (E : Engine) (N : UAnimNotify_SurfaceFootstep)
    (M : USkeletalMeshComponent) (Animation : UAnimSequenceBase)
    (PM : UFoostepPoolingManagerComponent) (FC : UFootstepComponent) (H : FHitResult) :
    ((H.bBlockingHit = false ∨ PhysMatOf H = none) ∧ AfterTrace E N M Animation PM FC H = []) ∨
    (∃ pm, H.bBlockingHit = true ∧ PhysMatOf H = some pm ∧
      FC.GetFootstepData pm.SurfaceType = none ∧
      AfterTrace E N M Animation PM FC H = [Event.GetFootstepData pm.SurfaceType none]) ∨
    (∃ pm D, H.bBlockingHit = true ∧ PhysMatOf H = some pm ∧
      FC.GetFootstepData pm.SurfaceType = some D ∧
      AfterTrace E N M Animation PM FC H =
        Event.GetFootstepData pm.SurfaceType (some D) ::
          (DebugBlock E N M Animation FC pm D ++ ActivateFootstepActor E N PM FC H D)) := by
  cases hB : H.bBlockingHit with
  | false => exact Or.inl ⟨Or.inl rfl, AfterTrace_of_not_blocking E N M Animation PM FC H hB⟩
  | true =>
  cases hP : PhysMatOf H with
  | none => exact Or.inl ⟨Or.inr rfl, AfterTrace_of_unresolved E N M Animation PM FC H hP⟩
  | some pm =>
  cases hD : FC.GetFootstepData pm.SurfaceType with
  | none =>
    exact Or.inr (Or.inl ⟨pm, rfl, rfl, hD, AfterTrace_of_no_asset E N M Animation PM FC H pm hB hP hD⟩)
  | some D =>
    exact Or.inr (Or.inr ⟨pm, D, rfl, rfl, hD,
      AfterTrace_of_asset E N M Animation PM FC H pm D hB hP hD⟩)

/-- A line trace recorded in a run is the one trace of a validated run: every gate has
passed, the trace starts at `StartTrace` along `DirectionVector`, its result is what the
component returned, and the run continues with `AfterTrace` on that result. -/
theorem trace_mem_inv (E : Engine) (N : UAnimNotify_SurfaceFootstep)
    (MeshComp : Option USkeletalMeshComponent) (Animation : UAnimSequenceBase)
    (s d : FVector) (H : FHitResult)
    (hT : Event.CreateFootstepLineTrace s d H ∈ Notify E N MeshComp Animation) :
    ∃ M O PM FC, MeshComp = some M ∧ M.GetOwner = some O ∧
      O.GetFootstepComponent = some FC ∧ s = StartTrace N M ∧ d = DirectionVector E N M ∧
      H = FC.CreateFootstepLineTrace (StartTrace N M) (DirectionVector E N M) ∧
      Notify E N MeshComp Animation =
        Event.GetFootstepComponent :: Event.CreateFootstepLineTrace s d H ::
          AfterTrace E N M Animation PM FC H := by
  rcases Notify_cases E N MeshComp Animation with h | ⟨err, h⟩ | h | h
  · rw [h] at hT; simp at hT
  · rw [h] at hT; simp at hT
  · obtain ⟨_, _, _, _, _, _, _, _, _, _, _, _, _, _, h⟩ := h
    rw [h] at hT; simp at hT
  · obtain ⟨S, M, W, O, PM, FC, _, hM, _, _, hO, _, _, _, hFC, h⟩ := h
    have hT2 := hT
    rw [h] at hT2
    simp only [List.mem_cons] at hT2
    rcases hT2 with hT2 | hT2 | hT2
    · cases hT2
    · injection hT2 with h1 h2 h3
      subst h1 h2 h3
      exact ⟨M, O, PM, FC, hM, hO, hFC, rfl, rfl, rfl, h⟩
    · have := (AfterTrace_kinds E N M Animation PM FC _ _ hT2).2.1
      simp [Event.isLineTrace] at this

/-- The hit's own physical material, when valid, is the resolved material. -/
theorem PhysMatOf_direct (H : FHitResult) (pm : UPhysicalMaterial)
    (h : H.PhysMaterial = some pm) : PhysMatOf H = some pm := by
  simp [PhysMatOf, h]

/-- Without a valid material of its own, the hit resolves to the simple material of the
hit component's body instance. -/
theorem PhysMatOf_fallback (H : FHitResult) (c : UPrimitiveComponent) (bi : FBodyInstance)
    (h : H.PhysMaterial = none) (hc : H.GetComponent = some c)
    (hbi : c.GetBodyInstance = some bi) :
    PhysMatOf H = bi.GetSimplePhysicalMaterial := by
  simp [PhysMatOf, h, hc, hbi]

/-- Without a valid material of its own and without a simple material, the hit resolves to
nothing. -/
theorem PhysMatOf_none (H : FHitResult) (h : H.PhysMaterial = none)
    (hdef : ∀ c bi, H.GetComponent = some c → c.GetBodyInstance = some bi →
      bi.GetSimplePhysicalMaterial = none) : PhysMatOf H = none := by
  cases hc : H.GetComponent with
  | none => simp [PhysMatOf, h, hc]
  | some c =>
    cases hbi : c.GetBodyInstance with
    | none => simp [PhysMatOf, h, hc, hbi]
    | some bi => simp [PhysMatOf, h, hc, hbi, hdef c bi hc hbi]

/-- The debug block and the activation block look nothing up in the data table. -/
theorem filter_lookup_tail (E : Engine) (N : UAnimNotify_SurfaceFootstep)
    (M : USkeletalMeshComponent) (Animation : UAnimSequenceBase)
    (PM : UFoostepPoolingManagerComponent) (FC : UFootstepComponent) (H : FHitResult)
    (pm : UPhysicalMaterial) (D : UFootstepDataAsset) :
    (DebugBlock E N M Animation FC pm D ++ ActivateFootstepActor E N PM FC H D).filter
      Event.isGetFootstepData = [] := by
  rw [List.filter_eq_nil_iff]
  intro e he
  rw [List.mem_append] at he
  rcases he with he | he
  · simp [(DebugBlock_kinds E N M Animation FC pm D e he).2.2.2.1]
  · simp [(ActivateFootstepActor_kinds E N PM FC H D e he).2.2.2.1]

/-- With a blocking hit that resolves to a material, exactly one lookup is made, keyed by
the surface type of that material. -/
theorem filter_lookup_AfterTrace (E : Engine) (N : UAnimNotify_SurfaceFootstep)
    (M : USkeletalMeshComponent) (Animation : UAnimSequenceBase)
    (PM : UFoostepPoolingManagerComponent) (FC : UFootstepComponent) (H : FHitResult)
    (pm : UPhysicalMaterial) (hB : H.bBlockingHit = true) (hP : PhysMatOf H = some pm) :
    (AfterTrace E N M Animation PM FC H).filter Event.isGetFootstepData =
      [Event.GetFootstepData pm.SurfaceType (FC.GetFootstepData pm.SurfaceType)] := by
  cases hD : FC.GetFootstepData pm.SurfaceType with
  | none =>
    rw [AfterTrace_of_no_asset E N M Animation PM FC H pm hB hP hD]
    simp [Event.isGetFootstepData]
  | some D =>
    rw [AfterTrace_of_asset E N M Animation PM FC H pm D hB hP hD]
    rw [List.filter_cons]
    simp only [Event.isGetFootstepData, if_true]
    rw [filter_lookup_tail]

/-- Without sound and particle for the category the activation block does nothing. -/
theorem ActivateFootstepActor_of_silent (E : Engine) (N : UAnimNotify_SurfaceFootstep)
    (PM : UFoostepPoolingManagerComponent) (FC : UFootstepComponent) (H : FHitResult)
    (D : UFootstepDataAsset) (hS : D.GetSound N.FootstepCategory = none)
    (hP : D.GetParticle N.FootstepCategory = none) :
    ActivateFootstepActor E N PM FC H D = [] := by
  simp [ActivateFootstepActor, hS, hP]

/-- With a sound or a particle for the category and an actor from the pool, the
activation block requests the actor and configures it. -/
theorem ActivateFootstepActor_of_pool (E : Engine) (N : UAnimNotify_SurfaceFootstep)
    (PM : UFoostepPoolingManagerComponent) (FC : UFootstepComponent) (H : FHitResult)
    (D : UFootstepDataAsset) (a : AFootstepActor)
    (hSP : (D.GetSound N.FootstepCategory).isSome = true ∨
      (D.GetParticle N.FootstepCategory).isSome = true)
    (hA : PM.GetPooledActor = some a) :
    ActivateFootstepActor E N PM FC H D =
      [Event.SafeSpawnPooledActor, Event.GetPooledActor (some a),
       Event.ActorCall a (FootstepActorCall.SetPoolingActive false),
       Event.ActorCall a (FootstepActorCall.SetActorTransform
         ⟨E.MakeFromZ_Rotator H.ImpactNormal, H.ImpactPoint, ⟨1, 1, 1⟩⟩),
       Event.ActorCall a (FootstepActorCall.InitSound (D.GetSound N.FootstepCategory)
         D.GetVolume D.GetPitch FC.GetPlaySound2D D.GetAttenuationOverride
         D.GetConcurrencyOverride),
       Event.ActorCall a (FootstepActorCall.InitParticle (D.GetParticle N.FootstepCategory)
         D.GetRelScaleParticle),
       Event.ActorCall a (FootstepActorCall.SetLifeSpan D.GetFootstepLifeSpan),
       Event.ActorCall a (FootstepActorCall.SetPoolingActive true)] := by
  have hc : ((D.GetSound N.FootstepCategory).isSome ||
      (D.GetParticle N.FootstepCategory).isSome) = true := by
    rcases hSP with h | h <;> simp [h]
  simp [ActivateFootstepActor, hc, hA, ConfigureFootstepActor, FVector.splat]

/-! ## Validation -/

/-- C9: a call made on a dedicated server, or for an owner whose class does not implement
the footstep interface, is skipped entirely: `Notify` makes no call at all, so it
reports no configuration error (whatever the category registry holds), traces nothing
and touches no footstep actor. -/
theorem C9_skipped_on_dedicated_server_or_incapable_owner (E : Engine)
    (N : UAnimNotify_SurfaceFootstep) (M : USkeletalMeshComponent)
    (Animation : UAnimSequenceBase)
    (h : (∃ W, M.GetWorld = some W ∧ W.GetNetMode = ENetMode.NM_DedicatedServer) ∨
         (∃ O, M.GetOwner = some O ∧ O.ImplementsFootstepInterface = false)) :
    Notify E N (some M) Animation = [] := by
  rcases h with ⟨W, hW, hNet⟩ | ⟨O, hO, hI⟩
  · unfold Notify
    cases N.FootstepSettings <;> simp [hW, hNet]
  · unfold Notify
    cases N.FootstepSettings with
    | none => rfl
    | some S =>
      cases hW : M.GetWorld with
      | none => simp [hW]
      | some W => simp [hW, hO, hI]

/-- C9 at concrete inputs: Scenario A moved to a dedicated server with an empty registry,
and a standalone world whose owner is not footstep-capable, the category missing from
the registry. -/
theorem C9_witness :
    (((∃ W, meshDedicatedServer.GetWorld = some W ∧
          W.GetNetMode = ENetMode.NM_DedicatedServer) ∨
        (∃ O, meshDedicatedServer.GetOwner = some O ∧
          O.ImplementsFootstepInterface = false)) ∧
      Notify engine0 (notifyWalk []) (some meshDedicatedServer) animWalk = []) ∧
    (((∃ W, meshIncapableOwner.GetWorld = some W ∧
          W.GetNetMode = ENetMode.NM_DedicatedServer) ∨
        (∃ O, meshIncapableOwner.GetOwner = some O ∧
          O.ImplementsFootstepInterface = false)) ∧
      Notify engine0 (notifyWalk [tagRun]) (some meshIncapableOwner) animWalk = []) :=
  ⟨⟨Or.inl ⟨_, rfl, rfl⟩,
    C9_skipped_on_dedicated_server_or_incapable_owner engine0 (notifyWalk [])
      meshDedicatedServer animWalk (Or.inl ⟨_, rfl, rfl⟩)⟩,
   ⟨Or.inr ⟨_, rfl, rfl⟩,
    C9_skipped_on_dedicated_server_or_incapable_owner engine0 (notifyWalk [tagRun])
      meshIncapableOwner animWalk (Or.inr ⟨_, rfl, rfl⟩)⟩⟩

/-- C1 fails as stated: on a dedicated server, with an empty category registry (so the
category Walk of the notify is not contained in it), `Notify` returns at its first gate and
reports no configuration error. -/
theorem C1_counterexample :
    (notifyWalk []).FootstepSettings = some ⟨[]⟩ ∧
    USurfaceFootstepSystemSettings.ContainsCategory ⟨[]⟩ (notifyWalk []).FootstepCategory
      = false ∧
    Notify engine0 (notifyWalk []) (some meshDedicatedServer) animWalk = [] ∧
    ¬ ∃ err, Event.MessageLogError err ∈
      Notify engine0 (notifyWalk []) (some meshDedicatedServer) animWalk := by
  have h : Notify engine0 (notifyWalk []) (some meshDedicatedServer) animWalk = [] := rfl
  refine ⟨rfl, rfl, h, ?_⟩
  rw [h]
  simp

/-- C1, amended: when the category of the notify is not in the registry (the empty registry
included), `Notify` issues no line trace, makes no pool request and calls nothing on any
footstep actor; and when the call gets past the first gate (mesh component with a world
that is not a dedicated server and an owner implementing the footstep interface) it
reports one configuration error and does nothing else. -/
theorem C1_invalid_category_rejected (E : Engine) (N : UAnimNotify_SurfaceFootstep)
    (MeshComp : Option USkeletalMeshComponent) (Animation : UAnimSequenceBase)
    (S : USurfaceFootstepSystemSettings) (hS : N.FootstepSettings = some S)
    (hCat : S.ContainsCategory N.FootstepCategory = false) :
    (∀ e ∈ Notify E N MeshComp Animation,
      e.isLineTrace = false ∧ e.isPoolRequest = false ∧ e.isActorCall = false) ∧
    (∀ M W O, MeshComp = some M → M.GetWorld = some W →
      W.GetNetMode ≠ ENetMode.NM_DedicatedServer → M.GetOwner = some O →
      O.ImplementsFootstepInterface = true →
      Notify E N MeshComp Animation =
        [Event.MessageLogError
          (if S.GetCategoriesNum = 0 then ConfigError.NoFootstepCategory
           else ConfigError.InvalidCategory N.FootstepCategory.GetTagName)]) := by
  constructor
  · intro e he
    rcases Notify_cases E N MeshComp Animation with h | ⟨err, h⟩ | h | h
    · rw [h] at he; simp at he
    · rw [h] at he
      simp only [List.mem_singleton] at he
      subst he
      simp [Event.isLineTrace, Event.isPoolRequest, Event.isActorCall]
    · obtain ⟨S1, M, W, O, PM, hS1, _, _, _, _, _, hC, _⟩ := h
      rw [hS] at hS1
      cases hS1
      rw [hCat] at hC
      cases hC
    · obtain ⟨S1, M, W, O, PM, FC, hS1, _, _, _, _, _, hC, _⟩ := h
      rw [hS] at hS1
      cases hS1
      rw [hCat] at hC
      cases hC
  · intro M W O hM hW hNet hO hI
    subst hM
    by_cases hnum : S.GetCategoriesNum = 0
    · simp [Notify, hS, hW, hNet, hO, hI, hnum]
    · simp [Notify, hS, hW, hNet, hO, hI, hnum, hCat]

/-- C1 amended, at concrete inputs: Scenario A with an empty registry reports the missing
category error and nothing else. -/
theorem C1_witness :
    (notifyWalk []).FootstepSettings = some ⟨[]⟩ ∧
    USurfaceFootstepSystemSettings.ContainsCategory ⟨[]⟩ (notifyWalk []).FootstepCategory
      = false ∧
    Notify engine0 (notifyWalk []) (some (meshScenarioA false true)) animWalk =
      [Event.MessageLogError ConfigError.NoFootstepCategory] :=
  ⟨rfl, rfl,
   (C1_invalid_category_rejected engine0 (notifyWalk []) (some (meshScenarioA false true))
      animWalk ⟨[]⟩ rfl rfl).2 _ _ _ rfl rfl (by decide) rfl rfl⟩

/-- C7 fails as stated: for an owner whose class does not implement the footstep interface,
in a world whose settings do not implement it either, `Notify` returns at its first gate
and reports no configuration error. -/
theorem C7_counterexample :
    meshIncapableOwner.GetWorld = some worldWithoutInterface ∧
    PoolingManagerOf worldWithoutInterface = none ∧
    Notify engine0 (notifyWalk [tagWalk]) (some meshIncapableOwner) animWalk = [] ∧
    ¬ ∃ err, Event.MessageLogError err ∈
      Notify engine0 (notifyWalk [tagWalk]) (some meshIncapableOwner) animWalk := by
  have h : Notify engine0 (notifyWalk [tagWalk]) (some meshIncapableOwner) animWalk = [] := rfl
  refine ⟨rfl, rfl, h, ?_⟩
  rw [h]
  simp

/-- C7, amended: when the world settings provide no pooling manager (they are null, do not
implement the footstep interface, or their accessor returns null), `Notify` does not query
the owner for its footstep component, issues no line trace, looks nothing up, emits no
debug line, makes no pool request and calls nothing on any footstep actor; and when the
call gets past the first gate (settings present, not a dedicated server, owner
implementing the footstep interface) it reports exactly one configuration error, the one
about the world settings unless the category check fails first. -/
theorem C7_missing_pooling_manager (E : Engine) (N : UAnimNotify_SurfaceFootstep)
    (M : USkeletalMeshComponent) (Animation : UAnimSequenceBase) (W : UWorld)
    (hW : M.GetWorld = some W)
    (hPM : ∀ WS, W.GetWorldSettings = some WS →
      WS.AsFootstepInterface = none ∨ WS.AsFootstepInterface = some none) :
    (∀ e ∈ Notify E N (some M) Animation,
      e.isGetFootstepComponent = false ∧ e.isLineTrace = false ∧
      e.isGetFootstepData = false ∧ e.isDebug = false ∧ e.isPoolRequest = false ∧
      e.isActorCall = false) ∧
    (∀ S O, N.FootstepSettings = some S → W.GetNetMode ≠ ENetMode.NM_DedicatedServer →
      M.GetOwner = some O → O.ImplementsFootstepInterface = true →
      Notify E N (some M) Animation =
        [Event.MessageLogError
          (if S.GetCategoriesNum = 0 then ConfigError.NoFootstepCategory
           else if S.ContainsCategory N.FootstepCategory = false then
             ConfigError.InvalidCategory N.FootstepCategory.GetTagName
           else ConfigError.InvalidWorldSettings)]) := by
  have hnone : PoolingManagerOf W = none := by
    unfold PoolingManagerOf
    cases hWS : W.GetWorldSettings with
    | none => rfl
    | some WS =>
      rcases hPM WS hWS with h | h <;> simp [h]
  constructor
  · intro e he
    rcases Notify_cases E N (some M) Animation with h | ⟨err, h⟩ | h | h
    · rw [h] at he; simp at he
    · rw [h] at he
      simp only [List.mem_singleton] at he
      subst he
      simp [Event.isLineTrace, Event.isPoolRequest, Event.isActorCall,
        Event.isGetFootstepComponent, Event.isGetFootstepData, Event.isDebug]
    · obtain ⟨S1, M1, W1, O, PM, _, hM1, hW1, _, _, _, _, hP, _⟩ := h
      cases hM1
      rw [hW] at hW1
      cases hW1
      rw [hnone] at hP
      cases hP
    · obtain ⟨S1, M1, W1, O, PM, FC, _, hM1, hW1, _, _, _, _, hP, _⟩ := h
      cases hM1
      rw [hW] at hW1
      cases hW1
      rw [hnone] at hP
      cases hP
  · intro S O hS hNet hO hI
    by_cases hnum : S.GetCategoriesNum = 0
    · simp [Notify, hS, hW, hNet, hO, hI, hnum]
    · cases hCat : S.ContainsCategory N.FootstepCategory with
      | false => simp [Notify, hS, hW, hNet, hO, hI, hnum, hCat]
      | true => simp [Notify, hS, hW, hNet, hO, hI, hnum, hCat, hnone]

/-- C7 amended, at concrete inputs: Scenario A in a world whose settings do not implement
the footstep interface reports the world settings error and nothing else. -/
theorem C7_witness :
    meshWithoutPool.GetWorld = some worldWithoutInterface ∧
    (∀ WS, worldWithoutInterface.GetWorldSettings = some WS →
      WS.AsFootstepInterface = none ∨ WS.AsFootstepInterface = some none) ∧
    Notify engine0 (notifyWalk [tagWalk]) (some meshWithoutPool) animWalk =
      [Event.MessageLogError ConfigError.InvalidWorldSettings] :=
  ⟨rfl, fun _ h => Or.inl (by cases h; rfl),
   (C7_missing_pooling_manager engine0 (notifyWalk [tagWalk]) meshWithoutPool animWalk
      worldWithoutInterface rfl (fun _ h => Or.inl (by cases h; rfl))).2 _ _ rfl (by decide)
      rfl rfl⟩

/-! ## Trace outcome and surface resolution -/

/-- C2: when the line trace of a run returns `bBlockingHit = false`, the run makes no pool
request (neither `SafeSpawnPooledActor` nor `GetPooledActor`) and calls nothing on any
footstep actor, whatever the category, the data table and the pool hold. -/
theorem C2_no_blocking_hit_no_spawn (E : Engine) (N : UAnimNotify_SurfaceFootstep)
    (MeshComp : Option USkeletalMeshComponent) (Animation : UAnimSequenceBase)
    (h : ∀ s d H, Event.CreateFootstepLineTrace s d H ∈ Notify E N MeshComp Animation →
      H.bBlockingHit = false) :
    ∀ e ∈ Notify E N MeshComp Animation, e.isPoolRequest = false ∧ e.isActorCall = false := by
  intro e he
  rcases Notify_cases E N MeshComp Animation with h1 | ⟨err, h1⟩ | h1 | h1
  · rw [h1] at he; simp at he
  · rw [h1] at he
    simp only [List.mem_singleton] at he
    subst he
    simp [Event.isPoolRequest, Event.isActorCall]
  · obtain ⟨_, _, _, _, _, _, _, _, _, _, _, _, _, _, h1⟩ := h1
    rw [h1] at he
    simp only [List.mem_singleton] at he
    subst he
    simp [Event.isPoolRequest, Event.isActorCall]
  · obtain ⟨S, M, W, O, PM, FC, _, _, _, _, _, _, _, _, _, h1⟩ := h1
    have hB := h (StartTrace N M) (DirectionVector E N M)
      (FC.CreateFootstepLineTrace (StartTrace N M) (DirectionVector E N M))
      (by rw [h1]; simp)
    rw [h1, AfterTrace_of_not_blocking E N M Animation PM FC _ hB] at he
    simp only [List.mem_cons, List.mem_singleton, List.not_mem_nil, or_false] at he
    rcases he with rfl | rfl <;> simp [Event.isPoolRequest, Event.isActorCall]

/-- C2 at concrete inputs: Scenario A with a trace that hits nothing.  The trace is
issued from the socket, returns no blocking hit, and the run ends there. -/
theorem C2_witness :
    Event.CreateFootstepLineTrace (meshMiss.GetSocketLocation footL)
        (DirectionVector engine0 (notifyWalk [tagWalk]) meshMiss) hitNothing ∈
      Notify engine0 (notifyWalk [tagWalk]) (some meshMiss) animWalk ∧
    (∀ s d H, Event.CreateFootstepLineTrace s d H ∈
        Notify engine0 (notifyWalk [tagWalk]) (some meshMiss) animWalk →
      H.bBlockingHit = false) ∧
    (∀ e ∈ Notify engine0 (notifyWalk [tagWalk]) (some meshMiss) animWalk,
      e.isPoolRequest = false ∧ e.isActorCall = false) := by
  have hN : Notify engine0 (notifyWalk [tagWalk]) (some meshMiss) animWalk =
      [Event.GetFootstepComponent,
       Event.CreateFootstepLineTrace (meshMiss.GetSocketLocation footL)
        (DirectionVector engine0 (notifyWalk [tagWalk]) meshMiss) hitNothing] := rfl
  have hyp : ∀ s d H, Event.CreateFootstepLineTrace s d H ∈
      Notify engine0 (notifyWalk [tagWalk]) (some meshMiss) animWalk →
      H.bBlockingHit = false := by
    intro s d H hmem
    rw [hN] at hmem
    simp only [List.mem_cons, List.mem_singleton, List.not_mem_nil, or_false] at hmem
    rcases hmem with hmem | hmem
    · cases hmem
    · injection hmem with _ _ h3
      rw [h3]
      rfl
  exact ⟨by rw [hN]; simp, hyp,
    C2_no_blocking_hit_no_spawn engine0 (notifyWalk [tagWalk]) (some meshMiss) animWalk hyp⟩

/-- C3: surface resolution follows a fixed fallback order.  For a run whose trace returned
a blocking hit: if the hit has a valid physical material of its own, the one lookup of the
run is keyed by that material's surface type; if it has none but the hit component's
body instance has a simple physical material, the lookup is keyed by the surface type of
that material; if neither exists the run ends after the trace, with no pool request and
no error. -/
theorem C3_surface_resolution_order (E : Engine) (N : UAnimNotify_SurfaceFootstep)
    (MeshComp : Option USkeletalMeshComponent) (Animation : UAnimSequenceBase)
    (s d : FVector) (H : FHitResult)
    (hT : Event.CreateFootstepLineTrace s d H ∈ Notify E N MeshComp Animation)
    (hB : H.bBlockingHit = true) :
    (∀ pm, H.PhysMaterial = some pm →
      ∃ R, (Notify E N MeshComp Animation).filter Event.isGetFootstepData =
        [Event.GetFootstepData pm.SurfaceType R]) ∧
    (∀ c bi pm, H.PhysMaterial = none → H.GetComponent = some c →
      c.GetBodyInstance = some bi → bi.GetSimplePhysicalMaterial = some pm →
      ∃ R, (Notify E N MeshComp Animation).filter Event.isGetFootstepData =
        [Event.GetFootstepData pm.SurfaceType R]) ∧
    (H.PhysMaterial = none →
      (∀ c bi, H.GetComponent = some c → c.GetBodyInstance = some bi →
        bi.GetSimplePhysicalMaterial = none) →
      Notify E N MeshComp Animation =
        [Event.GetFootstepComponent, Event.CreateFootstepLineTrace s d H] ∧
      ∀ e ∈ Notify E N MeshComp Animation, e.isPoolRequest = false ∧ e.isError = false) := by
  obtain ⟨M, O, PM, FC, _, _, _, _, _, _, hN⟩ := trace_mem_inv E N MeshComp Animation s d H hT
  have hfilter : (Notify E N MeshComp Animation).filter Event.isGetFootstepData =
      (AfterTrace E N M Animation PM FC H).filter Event.isGetFootstepData := by
    rw [hN]
    simp [List.filter_cons, Event.isGetFootstepData]
  refine ⟨?_, ?_, ?_⟩
  · intro pm hpm
    refine ⟨FC.GetFootstepData pm.SurfaceType, ?_⟩
    rw [hfilter]
    exact filter_lookup_AfterTrace E N M Animation PM FC H pm hB (PhysMatOf_direct H pm hpm)
  · intro c bi pm hnone hc hbi hpm
    refine ⟨FC.GetFootstepData pm.SurfaceType, ?_⟩
    rw [hfilter]
    have hP : PhysMatOf H = some pm := by rw [PhysMatOf_fallback H c bi hnone hc hbi, hpm]
    exact filter_lookup_AfterTrace E N M Animation PM FC H pm hB hP
  · intro hnone hdef
    have hP := PhysMatOf_none H hnone hdef
    have hEq : Notify E N MeshComp Animation =
        [Event.GetFootstepComponent, Event.CreateFootstepLineTrace s d H] := by
      rw [hN, AfterTrace_of_unresolved E N M Animation PM FC H hP]
    refine ⟨hEq, ?_⟩
    intro e he
    rw [hEq] at he
    simp only [List.mem_cons, List.mem_singleton, List.not_mem_nil, or_false] at he
    rcases he with rfl | rfl <;> simp [Event.isPoolRequest, Event.isError]

/-- C3 at concrete inputs: a blocking hit with no material of its own on a component whose
body instance has the simple material Concrete; the lookup is keyed by the surface type
of Concrete. -/
theorem C3_witness :
    Event.CreateFootstepLineTrace (meshDefaultMaterial.GetSocketLocation footL)
        (DirectionVector engine0 (notifyWalk [tagWalk]) meshDefaultMaterial)
        hitDefaultMaterial ∈
      Notify engine0 (notifyWalk [tagWalk]) (some meshDefaultMaterial) animWalk ∧
    hitDefaultMaterial.bBlockingHit = true ∧
    ∃ R, (Notify engine0 (notifyWalk [tagWalk]) (some meshDefaultMaterial) animWalk).filter
        Event.isGetFootstepData = [Event.GetFootstepData physConcrete.SurfaceType R] := by
  have hN : Notify engine0 (notifyWalk [tagWalk]) (some meshDefaultMaterial) animWalk =
      Event.GetFootstepComponent ::
       Event.CreateFootstepLineTrace (meshDefaultMaterial.GetSocketLocation footL)
        (DirectionVector engine0 (notifyWalk [tagWalk]) meshDefaultMaterial)
        hitDefaultMaterial ::
       AfterTrace engine0 (notifyWalk [tagWalk]) meshDefaultMaterial animWalk poolOne
        (componentWith hitDefaultMaterial (some assetConcrete) false) hitDefaultMaterial := rfl
  have hT : Event.CreateFootstepLineTrace (meshDefaultMaterial.GetSocketLocation footL)
        (DirectionVector engine0 (notifyWalk [tagWalk]) meshDefaultMaterial)
        hitDefaultMaterial ∈
      Notify engine0 (notifyWalk [tagWalk]) (some meshDefaultMaterial) animWalk := by
    rw [hN]; simp
  exact ⟨hT, rfl,
    (C3_surface_resolution_order engine0 (notifyWalk [tagWalk]) (some meshDefaultMaterial)
      animWalk _ _ hitDefaultMaterial hT rfl).2.1 ⟨some ⟨some physConcrete⟩⟩
      ⟨some physConcrete⟩ physConcrete rfl rfl rfl rfl⟩

/-- C4: when the data asset found for the hit surface has neither a sound nor a particle
for the category of the notify, the run makes no pool request (`SafeSpawnPooledActor`,
`GetPooledActor`) and calls nothing on any footstep actor (no `SetPoolingActive`, no
configuration). -/
theorem C4_no_sound_no_particle_no_activation (E : Engine) (N : UAnimNotify_SurfaceFootstep)
    (MeshComp : Option USkeletalMeshComponent) (Animation : UAnimSequenceBase)
    (h : ∀ k D, Event.GetFootstepData k (some D) ∈ Notify E N MeshComp Animation →
      D.GetSound N.FootstepCategory = none ∧ D.GetParticle N.FootstepCategory = none) :
    ∀ e ∈ Notify E N MeshComp Animation, e.isPoolRequest = false ∧ e.isActorCall = false := by
  intro e he
  rcases Notify_cases E N MeshComp Animation with h1 | ⟨err, h1⟩ | h1 | h1
  · rw [h1] at he; simp at he
  · rw [h1] at he
    simp only [List.mem_singleton] at he
    subst he
    simp [Event.isPoolRequest, Event.isActorCall]
  · obtain ⟨_, _, _, _, _, _, _, _, _, _, _, _, _, _, h1⟩ := h1
    rw [h1] at he
    simp only [List.mem_singleton] at he
    subst he
    simp [Event.isPoolRequest, Event.isActorCall]
  · obtain ⟨S, M, W, O, PM, FC, _, _, _, _, _, _, _, _, _, h1⟩ := h1
    rcases AfterTrace_cases E N M Animation PM FC
      (FC.CreateFootstepLineTrace (StartTrace N M) (DirectionVector E N M)) with
      ⟨_, h2⟩ | ⟨pm, _, _, _, h2⟩ | ⟨pm, D, _, _, _, h2⟩
    · rw [h1, h2] at he
      simp only [List.mem_cons, List.mem_singleton, List.not_mem_nil, or_false] at he
      rcases he with rfl | rfl <;> simp [Event.isPoolRequest, Event.isActorCall]
    · rw [h1, h2] at he
      simp only [List.mem_cons, List.mem_singleton, List.not_mem_nil, or_false] at he
      rcases he with rfl | rfl | rfl <;> simp [Event.isPoolRequest, Event.isActorCall]
    · have hD := h pm.SurfaceType D (by rw [h1, h2]; simp)
      rw [h1, h2, ActivateFootstepActor_of_silent E N PM FC _ D hD.1 hD.2] at he
      simp only [List.mem_cons, List.append_nil] at he
      rcases he with rfl | rfl | rfl | he
      · simp [Event.isPoolRequest, Event.isActorCall]
      · simp [Event.isPoolRequest, Event.isActorCall]
      · simp [Event.isPoolRequest, Event.isActorCall]
      · have := DebugBlock_kinds E N M Animation FC pm D e he
        exact ⟨this.2.2.2.2.1, this.2.2.2.2.2.1⟩

/-- C4 at concrete inputs: Scenario A with a data asset that has neither sound nor
particle.  The asset is found, and no pool request or actor call follows. -/
theorem C4_witness :
    Event.GetFootstepData 1 (some assetSilent) ∈
      Notify engine0 (notifyWalk [tagWalk]) (some meshSilent) animWalk ∧
    (∀ k D, Event.GetFootstepData k (some D) ∈
        Notify engine0 (notifyWalk [tagWalk]) (some meshSilent) animWalk →
      D.GetSound (notifyWalk [tagWalk]).FootstepCategory = none ∧
      D.GetParticle (notifyWalk [tagWalk]).FootstepCategory = none) ∧
    (∀ e ∈ Notify engine0 (notifyWalk [tagWalk]) (some meshSilent) animWalk,
      e.isPoolRequest = false ∧ e.isActorCall = false) := by
  have hN : Notify engine0 (notifyWalk [tagWalk]) (some meshSilent) animWalk =
      [Event.GetFootstepComponent,
       Event.CreateFootstepLineTrace (meshSilent.GetSocketLocation footL)
        (DirectionVector engine0 (notifyWalk [tagWalk]) meshSilent) hitConcrete,
       Event.GetFootstepData 1 (some assetSilent)] := rfl
  have hyp : ∀ k D, Event.GetFootstepData k (some D) ∈
        Notify engine0 (notifyWalk [tagWalk]) (some meshSilent) animWalk →
      D.GetSound (notifyWalk [tagWalk]).FootstepCategory = none ∧
      D.GetParticle (notifyWalk [tagWalk]).FootstepCategory = none := by
    intro k D hmem
    rw [hN] at hmem
    simp only [List.mem_cons, List.mem_singleton, List.not_mem_nil, or_false] at hmem
    rcases hmem with hmem | hmem | hmem
    · cases hmem
    · cases hmem
    · injection hmem with _ h2
      injection h2 with h2
      rw [h2]
      exact ⟨rfl, rfl⟩
  exact ⟨by rw [hN]; simp, hyp,
    C4_no_sound_no_particle_no_activation engine0 (notifyWalk [tagWalk]) (some meshSilent)
      animWalk hyp⟩

/-- C8: a run with a blocking hit whose surface resolves but for which `GetFootstepData`
returns no data asset exits silently: it consists of the component query, the trace and
the lookup, so no configuration error is reported, no debug diagnostic is emitted, no pool
request is made and nothing is called on any footstep actor. -/
theorem C8_no_data_asset_silent_exit (E : Engine) (N : UAnimNotify_SurfaceFootstep)
    (MeshComp : Option USkeletalMeshComponent) (Animation : UAnimSequenceBase)
    (s d : FVector) (H : FHitResult) (pm : UPhysicalMaterial)
    (hT : Event.CreateFootstepLineTrace s d H ∈ Notify E N MeshComp Animation)
    (hB : H.bBlockingHit = true) (hP : PhysMatOf H = some pm)
    (hD : Event.GetFootstepData pm.SurfaceType none ∈ Notify E N MeshComp Animation) :
    Notify E N MeshComp Animation =
      [Event.GetFootstepComponent, Event.CreateFootstepLineTrace s d H,
       Event.GetFootstepData pm.SurfaceType none] ∧
    ∀ e ∈ Notify E N MeshComp Animation,
      e.isError = false ∧ e.isDebug = false ∧ e.isPoolRequest = false ∧
      e.isActorCall = false := by
  obtain ⟨M, O, PM, FC, _, _, _, _, _, _, hN⟩ := trace_mem_inv E N MeshComp Animation s d H hT
  have hnone : FC.GetFootstepData pm.SurfaceType = none := by
    cases hR : FC.GetFootstepData pm.SurfaceType with
    | none => rfl
    | some D =>
      exfalso
      rw [hN, AfterTrace_of_asset E N M Animation PM FC H pm D hB hP hR] at hD
      simp only [List.mem_cons, List.mem_append] at hD
      rcases hD with hD | hD | hD | hD | hD
      · cases hD
      · cases hD
      · injection hD with _ h2
        cases h2
      · have := (DebugBlock_kinds E N M Animation FC pm D _ hD).2.2.2.1
        simp [Event.isGetFootstepData] at this
      · have := (ActivateFootstepActor_kinds E N PM FC H D _ hD).2.2.2.1
        simp [Event.isGetFootstepData] at this
  have hEq : Notify E N MeshComp Animation =
      [Event.GetFootstepComponent, Event.CreateFootstepLineTrace s d H,
       Event.GetFootstepData pm.SurfaceType none] := by
    rw [hN, AfterTrace_of_no_asset E N M Animation PM FC H pm hB hP hnone]
  refine ⟨hEq, ?_⟩
  intro e he
  rw [hEq] at he
  simp only [List.mem_cons, List.mem_singleton, List.not_mem_nil, or_false] at he
  rcases he with rfl | rfl | rfl <;>
    simp [Event.isError, Event.isDebug, Event.isPoolRequest, Event.isActorCall]

/-- C8 at concrete inputs: Scenario A with debug on and a component that has no data
asset for Concrete. -/
theorem C8_witness :
    Event.CreateFootstepLineTrace (meshNoAsset.GetSocketLocation footL)
        (DirectionVector engine0 (notifyWalk [tagWalk]) meshNoAsset) hitConcrete ∈
      Notify engine0 (notifyWalk [tagWalk]) (some meshNoAsset) animWalk ∧
    hitConcrete.bBlockingHit = true ∧ PhysMatOf hitConcrete = some physConcrete ∧
    Event.GetFootstepData physConcrete.SurfaceType none ∈
      Notify engine0 (notifyWalk [tagWalk]) (some meshNoAsset) animWalk ∧
    (Notify engine0 (notifyWalk [tagWalk]) (some meshNoAsset) animWalk =
      [Event.GetFootstepComponent,
       Event.CreateFootstepLineTrace (meshNoAsset.GetSocketLocation footL)
        (DirectionVector engine0 (notifyWalk [tagWalk]) meshNoAsset) hitConcrete,
       Event.GetFootstepData physConcrete.SurfaceType none] ∧
     ∀ e ∈ Notify engine0 (notifyWalk [tagWalk]) (some meshNoAsset) animWalk,
      e.isError = false ∧ e.isDebug = false ∧ e.isPoolRequest = false ∧
      e.isActorCall = false) := by
  have hN : Notify engine0 (notifyWalk [tagWalk]) (some meshNoAsset) animWalk =
      [Event.GetFootstepComponent,
       Event.CreateFootstepLineTrace (meshNoAsset.GetSocketLocation footL)
        (DirectionVector engine0 (notifyWalk [tagWalk]) meshNoAsset) hitConcrete,
       Event.GetFootstepData physConcrete.SurfaceType none] := rfl
  have hT : Event.CreateFootstepLineTrace (meshNoAsset.GetSocketLocation footL)
        (DirectionVector engine0 (notifyWalk [tagWalk]) meshNoAsset) hitConcrete ∈
      Notify engine0 (notifyWalk [tagWalk]) (some meshNoAsset) animWalk := by
    rw [hN]; simp
  have hD : Event.GetFootstepData physConcrete.SurfaceType none ∈
      Notify engine0 (notifyWalk [tagWalk]) (some meshNoAsset) animWalk := by
    rw [hN]; simp
  exact ⟨hT, rfl, rfl, hD,
    C8_no_data_asset_silent_exit engine0 (notifyWalk [tagWalk]) (some meshNoAsset) animWalk
      _ _ hitConcrete physConcrete hT rfl rfl hD⟩

/-! ## Trace origin and direction -/

/-- C6: a run that passes validation with a non-null footstep component issues exactly one
line trace.  Socket mode holds exactly when `bTraceFromFootSocket` is set, `FootSocket` is
not `NAME_None` and the socket exists on the mesh.  In socket mode the trace starts at the
socket location and runs along the socket rotation's -Z, +Z, +forward, -forward, +Y, -Y
axis for Down, Up, Forward, Backward, Right, Left; otherwise it starts at the mesh
component location and runs along the component's -up, +up, +forward, -forward, +right,
-right vector. -/
theorem C6_one_trace_with_origin_and_direction (E : Engine) (N : UAnimNotify_SurfaceFootstep)
    (MeshComp : Option USkeletalMeshComponent) (Animation : UAnimSequenceBase)
    (S : USurfaceFootstepSystemSettings) (M : USkeletalMeshComponent) (W : UWorld) (O : AActor)
    (PM : UFoostepPoolingManagerComponent) (FC : UFootstepComponent)
    (hS : N.FootstepSettings = some S) (hM : MeshComp = some M) (hW : M.GetWorld = some W)
    (hNet : W.GetNetMode ≠ ENetMode.NM_DedicatedServer) (hO : M.GetOwner = some O)
    (hI : O.ImplementsFootstepInterface = true)
    (hCat : S.ContainsCategory N.FootstepCategory = true)
    (hPM : PoolingManagerOf W = some PM) (hFC : O.GetFootstepComponent = some FC) :
    ∃ Start Direction,
      (Notify E N MeshComp Animation).filter Event.isLineTrace =
        [Event.CreateFootstepLineTrace Start Direction
          (FC.CreateFootstepLineTrace Start Direction)] ∧
      ((N.bTraceFromFootSocket = true ∧ N.FootSocket ≠ FName.NAME_None ∧
          M.DoesSocketExist N.FootSocket = true) →
        Start = M.GetSocketLocation N.FootSocket ∧
        (N.FootstepTraceDirection = EFootstepTraceDirection.Down → Direction =
          FVector.neg (E.RotationMatrix_GetScaledAxis (M.GetSocketRotation N.FootSocket) EAxis.Z)) ∧
        (N.FootstepTraceDirection = EFootstepTraceDirection.Up → Direction =
          E.RotationMatrix_GetScaledAxis (M.GetSocketRotation N.FootSocket) EAxis.Z) ∧
        (N.FootstepTraceDirection = EFootstepTraceDirection.Forward → Direction =
          E.Rotator_Vector (M.GetSocketRotation N.FootSocket)) ∧
        (N.FootstepTraceDirection = EFootstepTraceDirection.Backward → Direction =
          FVector.neg (E.Rotator_Vector (M.GetSocketRotation N.FootSocket))) ∧
        (N.FootstepTraceDirection = EFootstepTraceDirection.Right → Direction =
          E.RotationMatrix_GetScaledAxis (M.GetSocketRotation N.FootSocket) EAxis.Y) ∧
        (N.FootstepTraceDirection = EFootstepTraceDirection.Left → Direction =
          FVector.neg (E.RotationMatrix_GetScaledAxis (M.GetSocketRotation N.FootSocket) EAxis.Y))) ∧
      (¬ (N.bTraceFromFootSocket = true ∧ N.FootSocket ≠ FName.NAME_None ∧
          M.DoesSocketExist N.FootSocket = true) →
        Start = M.GetComponentLocation ∧
        (N.FootstepTraceDirection = EFootstepTraceDirection.Down →
          Direction = FVector.neg M.GetUpVector) ∧
        (N.FootstepTraceDirection = EFootstepTraceDirection.Up →
          Direction = M.GetUpVector) ∧
        (N.FootstepTraceDirection = EFootstepTraceDirection.Forward →
          Direction = M.GetForwardVector) ∧
        (N.FootstepTraceDirection = EFootstepTraceDirection.Backward →
          Direction = FVector.neg M.GetForwardVector) ∧
        (N.FootstepTraceDirection = EFootstepTraceDirection.Right →
          Direction = M.GetRightVector) ∧
        (N.FootstepTraceDirection = EFootstepTraceDirection.Left →
          Direction = FVector.neg M.GetRightVector)) := by
  refine ⟨StartTrace N M, DirectionVector E N M, ?_, ?_, ?_⟩
  · rw [Notify_validated E N MeshComp Animation S M W O PM FC hS hM hW hNet hO hI hCat hPM hFC]
    have htail : (AfterTrace E N M Animation PM FC
        (FC.CreateFootstepLineTrace (StartTrace N M) (DirectionVector E N M))).filter
          Event.isLineTrace = [] := by
      rw [List.filter_eq_nil_iff]
      intro e he
      simp [(AfterTrace_kinds E N M Animation PM FC _ e he).2.1]
    simp [List.filter_cons, Event.isLineTrace, htail]
  · rintro ⟨hb, hn, hx⟩
    have hmode : bUseFootSocketLocation N M = true := by
      simp [bUseFootSocketLocation, TraceFromFootSocket, hb, hn, hx]
    refine ⟨by simp [StartTrace, hmode], ?_, ?_, ?_, ?_, ?_, ?_⟩ <;> intro hdir <;>
      simp [DirectionVector, hmode, hdir, FVector.scale_neg_one, FVector.neg]
  · intro hnot
    have hmode : bUseFootSocketLocation N M = false := by
      cases hm : bUseFootSocketLocation N M with
      | false => rfl
      | true =>
        exfalso
        apply hnot
        simpa [bUseFootSocketLocation, TraceFromFootSocket, and_assoc] using hm
    refine ⟨by simp [StartTrace, hmode], ?_, ?_, ?_, ?_, ?_, ?_⟩ <;> intro hdir <;>
      simp [DirectionVector, hmode, hdir, FVector.scale_neg_one, FVector.neg]

/-- C6 at concrete inputs: Scenario A, tracing Down from the socket foot_L.  The one trace
starts at the socket location (1, 2, 3) and runs along (0, 0, -1). -/
theorem C6_witness :
    (notifyWalk [tagWalk]).FootstepSettings = some ⟨[tagWalk]⟩ ∧
    (meshScenarioA false true).GetWorld = some (worldWith ENetMode.NM_Standalone (some poolOne)) ∧
    (worldWith ENetMode.NM_Standalone (some poolOne)).GetNetMode ≠ ENetMode.NM_DedicatedServer ∧
    (meshScenarioA false true).GetOwner =
      some (ownerWith (some (componentWith hitConcrete (some assetConcrete) false))) ∧
    USurfaceFootstepSystemSettings.ContainsCategory ⟨[tagWalk]⟩
      (notifyWalk [tagWalk]).FootstepCategory = true ∧
    PoolingManagerOf (worldWith ENetMode.NM_Standalone (some poolOne)) = some poolOne ∧
    (Notify engine0 (notifyWalk [tagWalk]) (some (meshScenarioA false true)) animWalk).filter
        Event.isLineTrace =
      [Event.CreateFootstepLineTrace ⟨1, 2, 3⟩ ⟨0, 0, -1⟩ hitConcrete] := by
  refine ⟨rfl, rfl, by decide, rfl, rfl, rfl, ?_⟩
  obtain ⟨Start, Direction, hF, hSock, _⟩ :=
    C6_one_trace_with_origin_and_direction engine0 (notifyWalk [tagWalk])
      (some (meshScenarioA false true)) animWalk ⟨[tagWalk]⟩ (meshScenarioA false true)
      (worldWith ENetMode.NM_Standalone (some poolOne))
      (ownerWith (some (componentWith hitConcrete (some assetConcrete) false))) poolOne
      (componentWith hitConcrete (some assetConcrete) false) rfl rfl rfl (by decide) rfl rfl
      rfl rfl rfl
  obtain ⟨hStart, hDown, _⟩ := hSock ⟨rfl, by decide, rfl⟩
  have hDir := hDown rfl
  rw [hF, hStart, hDir]
  simp [FVector.neg, meshScenarioA, meshWith, engine0, componentWith]

/-! ## Activation of the pooled actor -/

/-- C5: when every gate passes (not a dedicated server, footstep-capable owner, category in
the registry, pooling manager present, non-null component, blocking hit, resolved surface,
data asset present, sound or particle non-null) and the pool yields an actor, the pool
requests and actor calls of the run are exactly: `SafeSpawnPooledActor`, `GetPooledActor`,
then on that actor `SetPoolingActive(false)`, `SetActorTransform` with the rotation made
from the impact normal as Z axis, the impact point as translation and unit scale,
`InitSound` with the asset's sound for the category, its volume and pitch, the
component's 2D flag and the asset's attenuation and concurrency overrides, `InitParticle`
with the asset's particle for the category and its relative scale, `SetLifeSpan` with the
asset's lifespan, and `SetPoolingActive(true)` last. -/
theorem C5_activation_sequence (E : Engine) (N : UAnimNotify_SurfaceFootstep)
    (MeshComp : Option USkeletalMeshComponent) (Animation : UAnimSequenceBase)
    (S : USurfaceFootstepSystemSettings) (M : USkeletalMeshComponent) (W : UWorld) (O : AActor)
    (PM : UFoostepPoolingManagerComponent) (FC : UFootstepComponent) (H : FHitResult)
    (pm : UPhysicalMaterial) (D : UFootstepDataAsset) (a : AFootstepActor)
    (hS : N.FootstepSettings = some S) (hM : MeshComp = some M) (hW : M.GetWorld = some W)
    (hNet : W.GetNetMode ≠ ENetMode.NM_DedicatedServer) (hO : M.GetOwner = some O)
    (hI : O.ImplementsFootstepInterface = true)
    (hCat : S.ContainsCategory N.FootstepCategory = true)
    (hPM : PoolingManagerOf W = some PM) (hFC : O.GetFootstepComponent = some FC)
    (hH : FC.CreateFootstepLineTrace (StartTrace N M) (DirectionVector E N M) = H)
    (hB : H.bBlockingHit = true) (hP : PhysMatOf H = some pm)
    (hD : FC.GetFootstepData pm.SurfaceType = some D)
    (hSP : D.GetSound N.FootstepCategory ≠ none ∨ D.GetParticle N.FootstepCategory ≠ none)
    (hA : PM.GetPooledActor = some a) :
    (Notify E N MeshComp Animation).filter (fun e => e.isPoolRequest || e.isActorCall) =
      [Event.SafeSpawnPooledActor, Event.GetPooledActor (some a),
       Event.ActorCall a (FootstepActorCall.SetPoolingActive false),
       Event.ActorCall a (FootstepActorCall.SetActorTransform
         ⟨E.MakeFromZ_Rotator H.ImpactNormal, H.ImpactPoint, ⟨1, 1, 1⟩⟩),
       Event.ActorCall a (FootstepActorCall.InitSound (D.GetSound N.FootstepCategory)
         D.GetVolume D.GetPitch FC.GetPlaySound2D D.GetAttenuationOverride
         D.GetConcurrencyOverride),
       Event.ActorCall a (FootstepActorCall.InitParticle (D.GetParticle N.FootstepCategory)
         D.GetRelScaleParticle),
       Event.ActorCall a (FootstepActorCall.SetLifeSpan D.GetFootstepLifeSpan),
       Event.ActorCall a (FootstepActorCall.SetPoolingActive true)] := by
  have hSP2 : (D.GetSound N.FootstepCategory).isSome = true ∨
      (D.GetParticle N.FootstepCategory).isSome = true := by
    rcases hSP with h | h
    · exact Or.inl (Option.isSome_iff_ne_none.mpr h)
    · exact Or.inr (Option.isSome_iff_ne_none.mpr h)
  have hdebug : (DebugBlock E N M Animation FC pm D).filter
      (fun e => e.isPoolRequest || e.isActorCall) = [] := by
    rw [List.filter_eq_nil_iff]
    intro e he
    have := DebugBlock_kinds E N M Animation FC pm D e he
    simp [this.2.2.2.2.1, this.2.2.2.2.2.1]
  rw [Notify_validated E N MeshComp Animation S M W O PM FC hS hM hW hNet hO hI hCat hPM hFC,
    hH, AfterTrace_of_asset E N M Animation PM FC H pm D hB hP hD,
    ActivateFootstepActor_of_pool E N PM FC H D a hSP2 hA]
  simp only [List.filter_cons, List.filter_append, hdebug]
  simp [Event.isPoolRequest, Event.isActorCall]

/-- C5 at concrete inputs, Scenario A: category Walk in the registry, trace Down from the
socket foot_L, hit on Concrete whose Walk entry has the sound S1, no particle and volume
0.8.  Exactly one pooled actor is requested and activated, placed at the impact point,
with the sound initialised at volume 0.8 and a null particle. -/
theorem C5_witness :
    (notifyWalk [tagWalk]).FootstepSettings = some ⟨[tagWalk]⟩ ∧
    (meshScenarioA true true).GetWorld = some (worldWith ENetMode.NM_Standalone (some poolOne)) ∧
    (worldWith ENetMode.NM_Standalone (some poolOne)).GetNetMode ≠ ENetMode.NM_DedicatedServer ∧
    (meshScenarioA true true).GetOwner =
      some (ownerWith (some (componentWith hitConcrete (some assetConcrete) true))) ∧
    USurfaceFootstepSystemSettings.ContainsCategory ⟨[tagWalk]⟩
      (notifyWalk [tagWalk]).FootstepCategory = true ∧
    PoolingManagerOf (worldWith ENetMode.NM_Standalone (some poolOne)) = some poolOne ∧
    hitConcrete.bBlockingHit = true ∧ PhysMatOf hitConcrete = some physConcrete ∧
    (assetConcrete.GetSound tagWalk ≠ none ∨ assetConcrete.GetParticle tagWalk ≠ none) ∧
    poolOne.GetPooledActor = some ⟨7⟩ ∧
    (Notify engine0 (notifyWalk [tagWalk]) (some (meshScenarioA true true)) animWalk).filter
        (fun e => e.isPoolRequest || e.isActorCall) =
      [Event.SafeSpawnPooledActor, Event.GetPooledActor (some ⟨7⟩),
       Event.ActorCall ⟨7⟩ (FootstepActorCall.SetPoolingActive false),
       Event.ActorCall ⟨7⟩ (FootstepActorCall.SetActorTransform
         ⟨⟨0, 0, 0⟩, ⟨10, 20, 0⟩, ⟨1, 1, 1⟩⟩),
       Event.ActorCall ⟨7⟩ (FootstepActorCall.InitSound (some soundS1) (4 / 5) 1 false
         none none),
       Event.ActorCall ⟨7⟩ (FootstepActorCall.InitParticle none ⟨1, 1, 1⟩),
       Event.ActorCall ⟨7⟩ (FootstepActorCall.SetLifeSpan 2),
       Event.ActorCall ⟨7⟩ (FootstepActorCall.SetPoolingActive true)] :=
  ⟨rfl, rfl, by decide, rfl, rfl, rfl, rfl, rfl, Or.inl (by decide), rfl,
   C5_activation_sequence engine0 (notifyWalk [tagWalk]) (some (meshScenarioA true true))
     animWalk ⟨[tagWalk]⟩ (meshScenarioA true true)
     (worldWith ENetMode.NM_Standalone (some poolOne))
     (ownerWith (some (componentWith hitConcrete (some assetConcrete) true))) poolOne
     (componentWith hitConcrete (some assetConcrete) true) hitConcrete physConcrete
     assetConcrete ⟨7⟩ rfl rfl rfl (by decide) rfl rfl rfl rfl rfl rfl rfl rfl rfl
     (Or.inl (by decide)) rfl⟩

/-! ## The debug diagnostic -/

/-- C10, at an input where the code departs from it: with `bTraceFromFootSocket` set and
`FootSocket` = foot_L, on a mesh that has no such socket, `bUseFootSocketLocation` is
false and the one trace starts at the mesh component location (which differs from the
socket location), yet the debug line reads Socket: foot_L where the origin used is the
root. -/
theorem C10_debug_line_misnames_origin_when_socket_missing :
    (notifyWalk [tagWalk]).bTraceFromFootSocket = true ∧
    (notifyWalk [tagWalk]).FootSocket = footL ∧ footL ≠ FName.NAME_None ∧
    (meshScenarioA true false).DoesSocketExist footL = false ∧
    (meshScenarioA true false).GetComponentLocation ≠
      (meshScenarioA true false).GetSocketLocation footL ∧
    (Notify engine0 (notifyWalk [tagWalk]) (some (meshScenarioA true false)) animWalk).filter
        Event.isLineTrace =
      [Event.CreateFootstepLineTrace (meshScenarioA true false).GetComponentLocation
        (FVector.neg (meshScenarioA true false).GetUpVector) hitConcrete] ∧
    (Notify engine0 (notifyWalk [tagWalk]) (some (meshScenarioA true false)) animWalk).filter
        Event.isDebug =
      [Event.AddOnScreenDebugMessage
        "PhysMat: Concrete, DataAsset: DA_Concrete, Anim: Walk_Fwd, Category: Walk, Socket: foot_L, Owner: Hero",
       Event.LogFootstep
        "PhysMat: Concrete, DataAsset: DA_Concrete, Anim: Walk_Fwd, Category: Walk, Socket: foot_L, Owner: Hero"] := by
  refine ⟨rfl, rfl, by decide, rfl, by decide, ?_, ?_⟩
  · have hd : DirectionVector engine0 (notifyWalk [tagWalk]) (meshScenarioA true false) =
        FVector.neg (meshScenarioA true false).GetUpVector := by
      have hmode : bUseFootSocketLocation (notifyWalk [tagWalk]) (meshScenarioA true false)
          = false := rfl
      have hdir : (notifyWalk [tagWalk]).FootstepTraceDirection =
          EFootstepTraceDirection.Down := rfl
      simp [DirectionVector, hmode, hdir, FVector.scale_neg_one, FVector.neg]
    rw [← hd]
    rfl
  · have hmsg : DebugMessage engine0 (notifyWalk [tagWalk]) (meshScenarioA true false) animWalk
        physConcrete assetConcrete =
        "PhysMat: Concrete, DataAsset: DA_Concrete, Anim: Walk_Fwd, Category: Walk, Socket: foot_L, Owner: Hero" := by
      decide
    rw [← hmsg]
    rfl

/-- What the debug diagnostic shows: whenever `Notify` emits the line (on screen or in the
log), the component's debug flag is set, and the socket field of the line is the
`FootSocket` name when `bTraceFromFootSocket` is set and `FootSocket` is not `NAME_None`,
and ROOT otherwise, whether or not the socket exists on the mesh.  The field agrees with
the origin of the trace when the socket exists (socket location) and when socket tracing
is not configured (component location); with socket tracing configured on a mesh lacking
the socket the trace starts at the component location. -/
theorem debug_line_socket_field (E : Engine) (N : UAnimNotify_SurfaceFootstep)
    (MeshComp : Option USkeletalMeshComponent) (Animation : UAnimSequenceBase) (msg : String)
    (h : Event.AddOnScreenDebugMessage msg ∈ Notify E N MeshComp Animation ∨
      Event.LogFootstep msg ∈ Notify E N MeshComp Animation) :
    ∃ M O FC pm D, MeshComp = some M ∧ M.GetOwner = some O ∧
      O.GetFootstepComponent = some FC ∧ FC.GetShowDebug = true ∧
      PhysMatOf (FC.CreateFootstepLineTrace (StartTrace N M) (DirectionVector E N M)) = some pm ∧
      FC.GetFootstepData pm.SurfaceType = some D ∧
      msg = "PhysMat: " ++ pm.Name ++ ", DataAsset: " ++ D.Name ++ ", Anim: " ++
        Animation.Name ++ ", Category: " ++ N.FootstepCategory.ToString ++ ", Socket: " ++
        (if N.bTraceFromFootSocket = true ∧ N.FootSocket ≠ FName.NAME_None then
          N.FootSocket.ToString else "ROOT") ++
        ", Owner: " ++ (if E.WITH_EDITOR = true then O.ActorLabel else O.Name) ∧
      ∃ Start, Event.CreateFootstepLineTrace Start (DirectionVector E N M)
          (FC.CreateFootstepLineTrace Start (DirectionVector E N M)) ∈
          Notify E N MeshComp Animation ∧
        (N.bTraceFromFootSocket = true ∧ N.FootSocket ≠ FName.NAME_None →
          M.DoesSocketExist N.FootSocket = true → Start = M.GetSocketLocation N.FootSocket) ∧
        (N.bTraceFromFootSocket = true ∧ N.FootSocket ≠ FName.NAME_None →
          M.DoesSocketExist N.FootSocket = false → Start = M.GetComponentLocation) ∧
        (¬ (N.bTraceFromFootSocket = true ∧ N.FootSocket ≠ FName.NAME_None) →
          Start = M.GetComponentLocation) := by
  have hdbg : ∃ e ∈ Notify E N MeshComp Animation,
      e = Event.AddOnScreenDebugMessage msg ∨ e = Event.LogFootstep msg := by
    rcases h with h | h
    · exact ⟨_, h, Or.inl rfl⟩
    · exact ⟨_, h, Or.inr rfl⟩
  obtain ⟨e, he, hmsg⟩ := hdbg
  have hisd : e.isDebug = true := by
    rcases hmsg with rfl | rfl <;> rfl
  rcases Notify_cases E N MeshComp Animation with h1 | ⟨err, h1⟩ | h1 | h1
  · rw [h1] at he; simp at he
  · rw [h1] at he
    simp only [List.mem_singleton] at he
    subst he
    simp [Event.isDebug] at hisd
  · obtain ⟨_, _, _, _, _, _, _, _, _, _, _, _, _, _, h1⟩ := h1
    rw [h1] at he
    simp only [List.mem_singleton] at he
    subst he
    simp [Event.isDebug] at hisd
  · obtain ⟨S, M, W, O, PM, FC, _, hM, _, _, hO, _, _, _, hFC, h1⟩ := h1
    have htrace : Event.CreateFootstepLineTrace (StartTrace N M) (DirectionVector E N M)
        (FC.CreateFootstepLineTrace (StartTrace N M) (DirectionVector E N M)) ∈
        Notify E N MeshComp Animation := by
      rw [h1]; simp
    rcases AfterTrace_cases E N M Animation PM FC
      (FC.CreateFootstepLineTrace (StartTrace N M) (DirectionVector E N M)) with
      ⟨_, h2⟩ | ⟨pm, _, _, _, h2⟩ | ⟨pm, D, _, hP, hD, h2⟩
    · rw [h1, h2] at he
      simp only [List.mem_cons, List.mem_singleton, List.not_mem_nil, or_false] at he
      rcases he with rfl | rfl <;> simp [Event.isDebug] at hisd
    · rw [h1, h2] at he
      simp only [List.mem_cons, List.mem_singleton, List.not_mem_nil, or_false] at he
      rcases he with rfl | rfl | rfl <;> simp [Event.isDebug] at hisd
    · rw [h1, h2] at he
      simp only [List.mem_cons, List.mem_append] at he
      have heD : e ∈ DebugBlock E N M Animation FC pm D := by
        rcases he with rfl | rfl | rfl | he | he
        · simp [Event.isDebug] at hisd
        · simp [Event.isDebug] at hisd
        · simp [Event.isDebug] at hisd
        · exact he
        · have := (ActivateFootstepActor_kinds E N PM FC _ D e he).1
          rw [hisd] at this
          cases this
      unfold DebugBlock at heD
      split at heD
      · rename_i hcond
        have hshow : FC.GetShowDebug = true := by
          simp only [Bool.and_eq_true] at hcond
          exact hcond.2
        have hm : msg = DebugMessage E N M Animation pm D := by
          simp only [List.mem_cons, List.mem_singleton, List.not_mem_nil, or_false] at heD
          rcases heD with heD | heD <;> rcases hmsg with hmsg | hmsg <;>
            rw [heD] at hmsg <;> cases hmsg <;> rfl
        refine ⟨M, O, FC, pm, D, hM, hO, hFC, hshow, hP, hD, ?_, StartTrace N M, htrace, ?_, ?_, ?_⟩
        · rw [hm]
          simp [DebugMessage, SocketName, TraceFromFootSocket, GetActorName, hO]
        · rintro ⟨hb, hn⟩ hx
          simp [StartTrace, bUseFootSocketLocation, TraceFromFootSocket, hb, hn, hx]
        · rintro ⟨hb, hn⟩ hx
          simp [StartTrace, bUseFootSocketLocation, TraceFromFootSocket, hb, hn, hx]
        · intro hnot
          have hf : TraceFromFootSocket N = false := by
            cases hm2 : TraceFromFootSocket N with
            | false => rfl
            | true =>
              exfalso
              apply hnot
              simpa [TraceFromFootSocket] using hm2
          simp [StartTrace, bUseFootSocketLocation, hf]
      · simp at heD

/-- The debug diagnostic of Scenario A with debug on and the socket foot_L present on the
mesh: the line shows foot_L and the trace starts at the socket. -/
theorem debug_line_socket_field_scenarioA :
    Event.AddOnScreenDebugMessage
        "PhysMat: Concrete, DataAsset: DA_Concrete, Anim: Walk_Fwd, Category: Walk, Socket: foot_L, Owner: Hero" ∈
      Notify engine0 (notifyWalk [tagWalk]) (some (meshScenarioA true true)) animWalk ∧
    (∃ M O FC pm D, (some (meshScenarioA true true)) = some M ∧ M.GetOwner = some O ∧
      O.GetFootstepComponent = some FC ∧ FC.GetShowDebug = true ∧
      PhysMatOf (FC.CreateFootstepLineTrace (StartTrace (notifyWalk [tagWalk]) M) (DirectionVector engine0 (notifyWalk [tagWalk]) M)) = some pm ∧
      FC.GetFootstepData pm.SurfaceType = some D ∧
      "PhysMat: Concrete, DataAsset: DA_Concrete, Anim: Walk_Fwd, Category: Walk, Socket: foot_L, Owner: Hero" = "PhysMat: " ++ pm.Name ++ ", DataAsset: " ++ D.Name ++ ", Anim: " ++
        animWalk.Name ++ ", Category: " ++ (notifyWalk [tagWalk]).FootstepCategory.ToString ++ ", Socket: " ++
        (if (notifyWalk [tagWalk]).bTraceFromFootSocket = true ∧ (notifyWalk [tagWalk]).FootSocket ≠ FName.NAME_None then
          (notifyWalk [tagWalk]).FootSocket.ToString else "ROOT") ++
        ", Owner: " ++ (if engine0.WITH_EDITOR = true then O.ActorLabel else O.Name) ∧
      ∃ Start, Event.CreateFootstepLineTrace Start (DirectionVector engine0 (notifyWalk [tagWalk]) M)
          (FC.CreateFootstepLineTrace Start (DirectionVector engine0 (notifyWalk [tagWalk]) M)) ∈
          Notify engine0 (notifyWalk [tagWalk]) (some (meshScenarioA true true)) animWalk ∧
        ((notifyWalk [tagWalk]).bTraceFromFootSocket = true ∧ (notifyWalk [tagWalk]).FootSocket ≠ FName.NAME_None →
          M.DoesSocketExist (notifyWalk [tagWalk]).FootSocket = true → Start = M.GetSocketLocation (notifyWalk [tagWalk]).FootSocket) ∧
        ((notifyWalk [tagWalk]).bTraceFromFootSocket = true ∧ (notifyWalk [tagWalk]).FootSocket ≠ FName.NAME_None →
          M.DoesSocketExist (notifyWalk [tagWalk]).FootSocket = false → Start = M.GetComponentLocation) ∧
        (¬ ((notifyWalk [tagWalk]).bTraceFromFootSocket = true ∧ (notifyWalk [tagWalk]).FootSocket ≠ FName.NAME_None) →
          Start = M.GetComponentLocation)) := by
  have hmsg : DebugMessage engine0 (notifyWalk [tagWalk]) (meshScenarioA true true) animWalk
      physConcrete assetConcrete =
      "PhysMat: Concrete, DataAsset: DA_Concrete, Anim: Walk_Fwd, Category: Walk, Socket: foot_L, Owner: Hero" := by
    decide
  have hmem : Event.AddOnScreenDebugMessage
        "PhysMat: Concrete, DataAsset: DA_Concrete, Anim: Walk_Fwd, Category: Walk, Socket: foot_L, Owner: Hero" ∈
      Notify engine0 (notifyWalk [tagWalk]) (some (meshScenarioA true true)) animWalk := by
    rw [← hmsg]
    have hN : Notify engine0 (notifyWalk [tagWalk]) (some (meshScenarioA true true)) animWalk =
        Event.GetFootstepComponent ::
        Event.CreateFootstepLineTrace
          (StartTrace (notifyWalk [tagWalk]) (meshScenarioA true true))
          (DirectionVector engine0 (notifyWalk [tagWalk]) (meshScenarioA true true))
          hitConcrete ::
        Event.GetFootstepData 1 (some assetConcrete) ::
        Event.AddOnScreenDebugMessage (DebugMessage engine0 (notifyWalk [tagWalk])
          (meshScenarioA true true) animWalk physConcrete assetConcrete) ::
        Event.LogFootstep (DebugMessage engine0 (notifyWalk [tagWalk])
          (meshScenarioA true true) animWalk physConcrete assetConcrete) ::
        ActivateFootstepActor engine0 (notifyWalk [tagWalk]) poolOne
          (componentWith hitConcrete (some assetConcrete) true) hitConcrete assetConcrete := rfl
    rw [hN]
    simp
  exact ⟨hmem,
    debug_line_socket_field engine0 (notifyWalk [tagWalk])
      (some (meshScenarioA true true)) animWalk _ (Or.inl hmem)⟩

end SurfaceFootstep
